import Mathlib

/-!
Verification of the bqui terminal UI navigation core.

The definitions below are a shallow embedding of the Go sources:
the dataset/table browser list (DatasetListModel), the tabbed detail
pane (TableDetailModel), and the top-level application model (Model)
with its message-processing Update function.  Go machine integers are
modelled as Int (the code never overflows 64-bit in the ranges the
theorems quantify over), Go nil-able pointers as Option, Go byte
strings as String (for id/filter text, which the UI treats as ASCII)
or as List Char where byte-level slicing matters.  tea.Cmd values are
modelled by the list of fetch/effect requests they dispatch.
-/

namespace Bqui

/-- Go strings.Contains, via explicit tails/prefix search. -/
def listTails : List Char → List (List Char)
  | [] => [[]]
  | c :: cs => (c :: cs) :: listTails cs

/-- Prefix test on character lists. -/
def listIsPrefixOf : List Char → List Char → Bool
  | [], _ => true
  | _ :: _, [] => false
  | a :: as, b :: bs => a == b && listIsPrefixOf as bs

/-- Go strings.Contains(hay, needle). -/
def strContains (hay needle : String) : Bool :=
  (listTails hay.toList).any (fun t => listIsPrefixOf needle.toList t)

/-- Go strings.ToLower (character-wise lowering). -/
def goToLower (s : String) : String :=
  ⟨s.data.map Char.toLower⟩

/-- Length of a Go slice as an Int (Go len). -/
def intLen {α : Type} (xs : List α) : Int :=
  (xs.length : Int)

/-- Go slice indexing xs[i]; callers in the source always guard the
index, a negative index (which would panic in Go) yields none. -/
def goGet {α : Type} (xs : List α) (i : Int) : Option α :=
  if 0 ≤ i then xs[i.toNat]? else none

/-! ## Entity types (internal/bigquery/client.go) -/

/-- bigquery.Dataset; only the ID participates in the navigation core. -/
structure Dataset where
  id : String
  deriving Repr, DecidableEq

/-- bigquery.Table: ID plus the ID of the dataset that owns it. -/
structure Table where
  id : String
  datasetID : String
  deriving Repr, DecidableEq

/-- bigquery.Project. -/
structure Project where
  id : String
  name : String
  deriving Repr, DecidableEq

/-- bigquery.Column: a schema field, recursively nested. -/
inductive Column where
  | mk (name : String) (typ : String) (repeated : Bool) (required : Bool)
       (description : String) (fields : List Column)
  deriving Repr

/-- Field accessors for Column. -/
def Column.name : Column → String
  | .mk n _ _ _ _ _ => n

def Column.typ : Column → String
  | .mk _ t _ _ _ _ => t

def Column.description : Column → String
  | .mk _ _ _ _ d _ => d

def Column.fields : Column → List Column
  | .mk _ _ _ _ _ fs => fs

/-- bigquery.TableSchema. -/
structure TableSchema where
  fields : List Column
  deriving Repr

/-- bigquery.TablePreview; cells are modelled by their rendered
(fmt.Sprintf %v) string form, which is all the UI ever reads. -/
structure TablePreview where
  headers : List String
  rows : List (List String)
  deriving Repr, DecidableEq

/-- bigquery.QueryResult. -/
structure QueryResult where
  columns : List String
  rows : List (List String)
  deriving Repr

/-! ## Key bindings (DefaultKeyMap in app.go) -/

def matchesUp (k : String) : Bool := k == "up" || k == "k"

def matchesDown (k : String) : Bool := k == "down" || k == "j"

def matchesLeft (k : String) : Bool := k == "left" || k == "h"

def matchesRight (k : String) : Bool := k == "right" || k == "l"

def matchesEnter (k : String) : Bool := k == "enter"

def matchesTab (k : String) : Bool := k == "tab"

def matchesShiftTab (k : String) : Bool := k == "shift+tab"

def matchesSearch (k : String) : Bool := k == "/"

def matchesCopy (k : String) : Bool := k == "y"

def matchesCopyAlt (k : String) : Bool := k == "ctrl+y"

def matchesTop (k : String) : Bool := k == "home"

def matchesBottom (k : String) : Bool := k == "end"

def matchesVimTop (k : String) : Bool := k == "g"

def matchesVimBottom (k : String) : Bool := k == "G"

def matchesPageUp (k : String) : Bool := k == "pgup"

def matchesPageDown (k : String) : Bool := k == "pgdown"

def matchesProjectList (k : String) : Bool := k == "ctrl+p"

def matchesEscape (k : String) : Bool := k == "esc"

def matchesBack (k : String) : Bool := k == "backspace"

def matchesQuit (k : String) : Bool := k == "q" || k == "ctrl+c"

def matchesHelp (k : String) : Bool := k == "?"

/-! ## DatasetListModel (dataset_list.go) -/

/-- The browser list over datasets, or over tables of the selected
dataset when showingTables is set. -/
structure DatasetListModel where
  datasets : List Dataset
  tables : List Table
  selectedDataset : Option Dataset
  selectedTable : Option Table
  cursor : Int
  filter : String
  showingTables : Bool
  viewOffset : Int
  tableSelected : Bool
  deriving Repr, DecidableEq

/-- NewDatasetListModel. -/
def DatasetListModel.new : DatasetListModel where
  datasets := []
  tables := []
  selectedDataset := none
  selectedTable := none
  cursor := 0
  filter := ""
  showingTables := false
  viewOffset := 0
  tableSelected := false

/-- getFilteredDatasets: case-insensitive substring filter on dataset id. -/
def DatasetListModel.getFilteredDatasets (m : DatasetListModel) : List Dataset :=
  if m.filter == "" then m.datasets
  else m.datasets.filter (fun d => strContains (goToLower d.id) (goToLower m.filter))

/-- getFilteredTables: case-insensitive substring filter on table id. -/
def DatasetListModel.getFilteredTables (m : DatasetListModel) : List Table :=
  if m.filter == "" then m.tables
  else m.tables.filter (fun t => strContains (goToLower t.id) (goToLower m.filter))

/-- getFilteredItems: ids of the currently browsed (filtered) level. -/
def DatasetListModel.getFilteredItems (m : DatasetListModel) : List String :=
  if !m.showingTables then (m.getFilteredDatasets).map (fun d => d.id)
  else (m.getFilteredTables).map (fun t => t.id)

/-- updateSelection: track the item under the cursor as the selection. -/
def DatasetListModel.updateSelection (m : DatasetListModel) : DatasetListModel :=
  if !m.showingTables then
    let datasets := m.getFilteredDatasets
    if m.cursor < intLen datasets then
      match goGet datasets m.cursor with
      | some d => { m with selectedDataset := some d }
      | none => m
    else m
  else
    let tables := m.getFilteredTables
    if m.cursor < intLen tables then
      match goGet tables m.cursor with
      | some t => { m with selectedTable := some t }
      | none => m
    else m

/-- ensureCursorVisible: re-clamp viewOffset so the cursor stays inside
the 20-row visible window (the maxVisible constant of the source). -/
def DatasetListModel.ensureCursorVisible (m : DatasetListModel) (totalItems : Int) :
    DatasetListModel :=
  let maxVisible : Int := 20
  let o1 := if m.cursor < m.viewOffset then m.cursor else m.viewOffset
  let o2 := if m.cursor ≥ o1 + maxVisible then m.cursor - maxVisible + 1 else o1
  let o3 := if o2 < 0 then 0 else o2
  let o4 := if totalItems > maxVisible ∧ o3 > totalItems - maxVisible
            then totalItems - maxVisible else o3
  { m with viewOffset := o4 }

/-- handleKeypress of DatasetListModel.  The source returns (model, nil)
on every path, so only the model is produced here. -/
def DatasetListModel.handleKeypress (m : DatasetListModel) (k : String) :
    DatasetListModel :=
  let filteredItems := m.getFilteredItems
  if intLen filteredItems = 0 then m
  else
    let n := intLen filteredItems
    -- the common fall-through of the source: updateSelection then
    -- ensureCursorVisible(len(filteredItems))
    let fall := fun (m1 : DatasetListModel) =>
      DatasetListModel.ensureCursorVisible (m1.updateSelection) n
    if matchesUp k then
      fall (if m.cursor > 0 then { m with cursor := m.cursor - 1 } else m)
    else if matchesDown k then
      fall (if m.cursor < n - 1 then { m with cursor := m.cursor + 1 } else m)
    else if matchesVimTop k || matchesTop k then
      fall { m with cursor := 0, viewOffset := 0 }
    else if matchesVimBottom k || matchesBottom k then
      fall { m with cursor := n - 1,
                    viewOffset := if n > 20 then n - 20 else 0 }
    else if matchesPageUp k then
      fall { m with cursor := if m.cursor - 10 < 0 then 0 else m.cursor - 10 }
    else if matchesPageDown k then
      fall { m with cursor := if m.cursor + 10 ≥ n then n - 1 else m.cursor + 10 }
    else if matchesEnter k then
      if !m.showingTables then
        let ds := m.getFilteredDatasets
        if m.cursor < intLen ds then
          match goGet ds m.cursor with
          | some d => { m with selectedDataset := some d, showingTables := true,
                               cursor := 0, selectedTable := none }
          | none => fall m
        else fall m
      else
        let ts := m.getFilteredTables
        if m.cursor < intLen ts then
          match goGet ts m.cursor with
          | some t => { m with selectedTable := some t, tableSelected := true }
          | none => fall m
        else fall m
    else if matchesLeft k then
      fall (if m.showingTables then
              { m with showingTables := false, selectedTable := none, cursor := 0 }
            else m)
    else if matchesRight k then
      fall (if !m.showingTables && m.selectedDataset.isSome then
              { m with showingTables := true, cursor := 0 }
            else m)
    else fall m

/-! ## Claim C3: scroll-to-cursor invariant of the browser list -/

/-- The cursor-movement key strings of the claim: up, down, page up,
page down, top (home and g), bottom (end and G). -/
def isMoveKey (k : String) : Bool :=
  matchesUp k || matchesDown k || matchesVimTop k || matchesTop k ||
  matchesVimBottom k || matchesBottom k || matchesPageUp k || matchesPageDown k

/-- The fields that determine the filtered item list. -/
def DatasetListModel.listShape (m : DatasetListModel) :
    List Dataset × List Table × String × Bool :=
  (m.datasets, m.tables, m.filter, m.showingTables)

/-- Well-formedness carried through movement sequences: the cursor is in
bounds of the filtered items and the viewport offset is non-negative. -/
def DatasetListModel.Wf (m : DatasetListModel) : Prop :=
  0 ≤ m.cursor ∧ m.cursor < intLen m.getFilteredItems ∧ 0 ≤ m.viewOffset

instance (m : DatasetListModel) : Decidable m.Wf := by
  unfold DatasetListModel.Wf
  infer_instance

theorem getFilteredItems_congr {m1 m2 : DatasetListModel}
    (h : m1.listShape = m2.listShape) :
    m1.getFilteredItems = m2.getFilteredItems := by
  obtain ⟨h1, h2, h3, h4⟩ : m1.datasets = m2.datasets ∧ m1.tables = m2.tables ∧
      m1.filter = m2.filter ∧ m1.showingTables = m2.showingTables := by
    simpa [DatasetListModel.listShape, Prod.ext_iff] using h
  simp [DatasetListModel.getFilteredItems, DatasetListModel.getFilteredDatasets,
    DatasetListModel.getFilteredTables, h1, h2, h3, h4]

theorem updateSelection_preserves (m : DatasetListModel) :
    (m.updateSelection).cursor = m.cursor ∧
    (m.updateSelection).viewOffset = m.viewOffset ∧
    (m.updateSelection).listShape = m.listShape ∧
    (m.updateSelection).tableSelected = m.tableSelected := by
  unfold DatasetListModel.updateSelection
  dsimp only
  repeat' split
  all_goals simp [DatasetListModel.listShape]

theorem ensureCursorVisible_spec (m : DatasetListModel) (n : Int)
    (hc0 : 0 ≤ m.cursor) (hcn : m.cursor < n) :
    (m.ensureCursorVisible n).cursor = m.cursor ∧
    (m.ensureCursorVisible n).viewOffset ≤ m.cursor ∧
    m.cursor < (m.ensureCursorVisible n).viewOffset + 20 ∧
    0 ≤ (m.ensureCursorVisible n).viewOffset ∧
    (m.ensureCursorVisible n).listShape = m.listShape ∧
    (m.ensureCursorVisible n).tableSelected = m.tableSelected := by
  unfold DatasetListModel.ensureCursorVisible
  simp only [DatasetListModel.listShape]
  split_ifs <;> simp <;> omega

/-- One movement keypress preserves well-formedness and (re)establishes
the scroll invariant viewOffset ≤ cursor < viewOffset + 20, and leaves
the filtered item list unchanged. -/
theorem handleKeypress_move_spec (m : DatasetListModel) (k : String)
    (hk : isMoveKey k = true) (hwf : m.Wf) :
    (m.handleKeypress k).Wf ∧
    (m.handleKeypress k).listShape = m.listShape ∧
    (m.handleKeypress k).viewOffset ≤ (m.handleKeypress k).cursor ∧
    (m.handleKeypress k).cursor < (m.handleKeypress k).viewOffset + 20 := by
  obtain ⟨hc0, hcn, hv⟩ := hwf
  have hn : 0 < intLen m.getFilteredItems := lt_of_le_of_lt hc0 hcn
  -- a generic fact about the fall-through updateSelection ∘ ensureCursorVisible
  have fallSpec : ∀ m1 : DatasetListModel, m1.listShape = m.listShape →
      0 ≤ m1.cursor → m1.cursor < intLen m.getFilteredItems →
      ((m1.updateSelection).ensureCursorVisible (intLen m.getFilteredItems)).Wf ∧
      ((m1.updateSelection).ensureCursorVisible (intLen m.getFilteredItems)).listShape
        = m.listShape ∧
      ((m1.updateSelection).ensureCursorVisible (intLen m.getFilteredItems)).viewOffset ≤
        ((m1.updateSelection).ensureCursorVisible (intLen m.getFilteredItems)).cursor ∧
      ((m1.updateSelection).ensureCursorVisible (intLen m.getFilteredItems)).cursor <
        ((m1.updateSelection).ensureCursorVisible (intLen m.getFilteredItems)).viewOffset
          + 20 := by
    intro m1 hshape h0 h1
    obtain ⟨u1, u2, u3, _⟩ := updateSelection_preserves m1
    obtain ⟨e1, e2, e3, e4, e5, _⟩ :=
      ensureCursorVisible_spec m1.updateSelection (intLen m.getFilteredItems)
        (by omega) (by omega)
    have hshape2 : ((m1.updateSelection).ensureCursorVisible
        (intLen m.getFilteredItems)).listShape = m.listShape := by
      rw [e5, u3, hshape]
    refine ⟨⟨by omega, ?_, by omega⟩, hshape2, by omega, by omega⟩
    rw [getFilteredItems_congr hshape2]
    omega
  have hk2 : k = "up" ∨ k = "k" ∨ k = "down" ∨ k = "j" ∨ k = "g" ∨ k = "home" ∨
      k = "G" ∨ k = "end" ∨ k = "pgup" ∨ k = "pgdown" := by
    simp only [isMoveKey, matchesUp, matchesDown, matchesVimTop, matchesTop,
      matchesVimBottom, matchesBottom, matchesPageUp, matchesPageDown,
      Bool.or_eq_true, beq_iff_eq] at hk
    tauto
  rcases hk2 with rfl | rfl | rfl | rfl | rfl | rfl | rfl | rfl | rfl | rfl <;>
  · unfold DatasetListModel.handleKeypress
    dsimp only
    rw [if_neg (by omega : ¬ intLen m.getFilteredItems = 0)]
    simp only [matchesUp, matchesDown, matchesVimTop, matchesTop, matchesVimBottom,
      matchesBottom, matchesPageUp, matchesPageDown, matchesEnter, matchesLeft,
      matchesRight]
    simp only [String.reduceBEq, String.reduceEq, Bool.or_self, Bool.or_true,
      Bool.true_or, Bool.or_false, Bool.false_or, if_true, if_false,
      Bool.false_eq_true, Bool.true_eq_false, ite_true, ite_false]
    (try split) <;>
      first
        | exact fallSpec _ rfl hc0 hcn
        | exact fallSpec _ (by simp [DatasetListModel.listShape]) (by simp <;> omega)
            (by simp <;> omega)

/-- A sequence of keypresses processed by the browser list. -/
def applyMoves (m : DatasetListModel) (ks : List String) : DatasetListModel :=
  ks.foldl DatasetListModel.handleKeypress m

theorem applyMoves_wf (ks : List String) (m : DatasetListModel)
    (hks : ∀ k ∈ ks, isMoveKey k = true) (hwf : m.Wf) : (applyMoves m ks).Wf := by
  induction ks generalizing m with
  | nil => exact hwf
  | cons k ks ih =>
    have h1 := handleKeypress_move_spec m k (hks k (by simp)) hwf
    exact ih (m.handleKeypress k) (fun k2 hk2 => hks k2 (by simp [hk2])) h1.1

/-- Claim C3: for every sequence of cursor-movement events (up, down,
page up, page down, top, bottom) applied to the dataset/table list with
a non-empty filtered item set (well-formed start state), the invariant
viewOffset ≤ cursor < viewOffset + pageSize holds after every event,
with pageSize = 20, the visible row capacity used by both
ensureCursorVisible and the list renderer. -/
theorem moveCursor_scroll_invariant (ks : List String) (m : DatasetListModel)
    (hks : ∀ k ∈ ks, isMoveKey k = true) (hwf : m.Wf)
    (i : Nat) (hi : i < ks.length) :
    (applyMoves m (ks.take (i+1))).viewOffset ≤ (applyMoves m (ks.take (i+1))).cursor ∧
    (applyMoves m (ks.take (i+1))).cursor < (applyMoves m (ks.take (i+1))).viewOffset + 20 := by
  have hpref : (applyMoves m (ks.take i)).Wf :=
    applyMoves_wf _ _ (fun k hk => hks k (List.take_subset i ks hk)) hwf
  have hstep : ks.take (i+1) = ks.take i ++ [ks[i]] := by
    rw [List.take_succ]
    simp [List.getElem?_eq_getElem hi]
  rw [hstep]
  unfold applyMoves
  rw [List.foldl_append]
  have h := handleKeypress_move_spec (applyMoves m (ks.take i)) ks[i]
    (hks ks[i] (List.getElem_mem hi)) hpref
  exact ⟨h.2.2.1, h.2.2.2⟩

/-- Concrete instantiation of the C3 theorem: three datasets, the moves
down, down, top; the invariant holds after the second event. -/
theorem moveCursor_scroll_invariant_witness :
    (∀ k ∈ ["j", "j", "g"], isMoveKey k = true) ∧
    ({ DatasetListModel.new with
        datasets := [⟨"a"⟩, ⟨"b"⟩, ⟨"c"⟩] } : DatasetListModel).Wf ∧
    ((applyMoves { DatasetListModel.new with datasets := [⟨"a"⟩, ⟨"b"⟩, ⟨"c"⟩] }
        (["j", "j", "g"].take (1+1))).viewOffset ≤
      (applyMoves { DatasetListModel.new with datasets := [⟨"a"⟩, ⟨"b"⟩, ⟨"c"⟩] }
        (["j", "j", "g"].take (1+1))).cursor ∧
     (applyMoves { DatasetListModel.new with datasets := [⟨"a"⟩, ⟨"b"⟩, ⟨"c"⟩] }
        (["j", "j", "g"].take (1+1))).cursor <
      (applyMoves { DatasetListModel.new with datasets := [⟨"a"⟩, ⟨"b"⟩, ⟨"c"⟩] }
        (["j", "j", "g"].take (1+1))).viewOffset + 20) :=
  ⟨by decide, by decide,
    moveCursor_scroll_invariant ["j", "j", "g"] _ (by decide) (by decide) 1 (by decide)⟩

/-! ## TableDetailModel (internal/tui/table_detail.go) -/

/-- The tabs of the detail pane, in declaration order. -/
inductive TabType where
  | schemaTab
  | previewTab
  | queryTab
  deriving Repr, DecidableEq

/-- int(t) of the Go enum. -/
def TabType.toIdx : TabType → Int
  | .schemaTab => 0
  | .previewTab => 1
  | .queryTab => 2

/-- TabType(i) for i produced by the modulo-3 arithmetic of the source. -/
def tabOfIdx (i : Int) : TabType :=
  if i = 0 then .schemaTab else if i = 1 then .previewTab else .queryTab

/-- TabType((int(t)+1) % 3), the Tab cycle of the source. -/
def nextTab (t : TabType) : TabType :=
  tabOfIdx ((t.toIdx + 1) % 3)

/-- TabType((int(t)+2) % 3), the Shift+Tab cycle of the source. -/
def prevTab (t : TabType) : TabType :=
  tabOfIdx ((t.toIdx + 2) % 3)

/-- The embedded textarea: the navigation core only reads its focus
flag; its text is edited by the external bubbles library. -/
structure QueryInput where
  text : String
  focused : Bool
  deriving Repr, DecidableEq

/-- TableDetailModel: the tabbed right pane. -/
structure TableDetailModel where
  schema : Option TableSchema
  preview : Option TablePreview
  queryResult : Option QueryResult
  activeTab : TabType
  queryInput : QueryInput
  scrollOffset : Int
  horizontalOffset : Int
  currentTableName : String
  schemaFilter : String
  showSchemaFilter : Bool
  previewRowCursor : Int
  previewColCursor : Int
  schemaRowCursor : Int
  height : Int
  width : Int
  visualMode : Bool
  visualStartRow : Int
  visualEndRow : Int
  previewFilter : String
  showPreviewFilter : Bool
  deriving Repr

/-- NewTableDetailModel; the constructor focuses the query input and
leaves width at the Go zero value. -/
def TableDetailModel.new : TableDetailModel where
  schema := none
  preview := none
  queryResult := none
  activeTab := .schemaTab
  queryInput := { text := "", focused := true }
  scrollOffset := 0
  horizontalOffset := 0
  currentTableName := ""
  schemaFilter := ""
  showSchemaFilter := false
  previewRowCursor := 0
  previewColCursor := 0
  schemaRowCursor := 0
  height := 20
  width := 0
  visualMode := false
  visualStartRow := 0
  visualEndRow := 0
  previewFilter := ""
  showPreviewFilter := false

/-- fieldMatchesFilter: name, description or type contains the filter,
or any nested field matches recursively. -/
def fieldMatchesFilter : Column → String → Bool
  | .mk n t _ _ d fs, filter =>
    strContains (goToLower n) filter ||
    strContains (goToLower d) filter ||
    strContains (goToLower t) filter ||
    fs.attach.any (fun sf => fieldMatchesFilter sf.1 filter)
termination_by c _ => sizeOf c
decreasing_by
  simp_wf
  have h := List.sizeOf_lt_of_mem sf.2
  simp [Column.mk.sizeOf_spec]
  omega

/-- getFilteredSchemaFields. -/
def TableDetailModel.getFilteredSchemaFields (m : TableDetailModel) : List Column :=
  match m.schema with
  | none => []
  | some schema =>
    if m.schemaFilter == "" then schema.fields
    else schema.fields.filter (fun f => fieldMatchesFilter f (goToLower m.schemaFilter))

/-- getFilteredPreviewRows: rows with at least one cell containing the
(case-insensitive) preview filter. -/
def TableDetailModel.getFilteredPreviewRows (m : TableDetailModel) :
    List (List String) :=
  match m.preview with
  | none => []
  | some p =>
    if m.previewFilter == "" then p.rows
    else
      let filter := goToLower m.previewFilter
      p.rows.filter (fun row => row.any (fun cell => strContains (goToLower cell) filter))

/-- calculateColumnWidths: per column, the max of header length and
every (filtered) cell length, clamped to the 8..30 range. -/
def TableDetailModel.calculateColumnWidths (m : TableDetailModel) : List Int :=
  match m.preview with
  | none => []
  | some p =>
    if p.headers.length = 0 then []
    else
      let minColWidth : Int := 8
      let maxColWidth : Int := 30
      let filteredRows := m.getFilteredPreviewRows
      p.headers.enum.map (fun hd =>
        let w1 := filteredRows.foldl (fun w row =>
          match row[hd.1]? with
          | some cell => if (cell.length : Int) > w then (cell.length : Int) else w
          | none => w) (hd.2.length : Int)
        let w2 := if w1 < minColWidth then minColWidth else w1
        if w2 > maxColWidth then maxColWidth else w2)

/-- Character position where column c of a width plan starts (each
column is followed by one space, as in the source loops). -/
def colStartOf (colWidths : List Int) (c : Nat) : Int :=
  (colWidths.take c).foldl (fun a w => a + w + 1) 0

/-- ensurePreviewCursorVisible (maxVisible = 15, clamped against the
unfiltered preview row count, exactly as the source). -/
def TableDetailModel.ensurePreviewCursorVisible (m : TableDetailModel) :
    TableDetailModel :=
  match m.preview with
  | none => m
  | some p =>
    let maxVisible : Int := 15
    let o1 := if m.previewRowCursor < m.scrollOffset then m.previewRowCursor
              else m.scrollOffset
    let o2 := if m.previewRowCursor ≥ o1 + maxVisible
              then m.previewRowCursor - maxVisible + 1 else o1
    let o3 := if o2 < 0 then 0 else o2
    let o4 := if intLen p.rows > maxVisible ∧ o3 > intLen p.rows - maxVisible
              then intLen p.rows - maxVisible else o3
    { m with scrollOffset := o4 }

/-- ensurePreviewColumnVisible: keep the cursor column inside the
horizontal viewport, scrolling minimally; the source indexes
colWidths[previewColCursor], which its callers keep in range. -/
def TableDetailModel.ensurePreviewColumnVisible (m : TableDetailModel) :
    TableDetailModel :=
  match m.preview with
  | none => m
  | some p =>
    if p.headers.length = 0 then m
    else
      let colWidths := m.calculateColumnWidths
      let selectedColStart := colStartOf colWidths m.previewColCursor.toNat
      let selectedColEnd := selectedColStart + colWidths.getD m.previewColCursor.toNat 0
      let maxDisplayWidth := m.width - 2
      let visibleStart := m.horizontalOffset
      let visibleEnd := m.horizontalOffset + maxDisplayWidth
      if selectedColStart ≥ visibleStart ∧ selectedColEnd ≤ visibleEnd then m
      else if m.previewColCursor = 0 then { m with horizontalOffset := 0 }
      else if selectedColStart < visibleStart then
        { m with horizontalOffset := selectedColStart }
      else if selectedColEnd > visibleEnd then
        { m with horizontalOffset := m.horizontalOffset + (selectedColEnd - visibleEnd) }
      else m

/-- ensureSchemaCursorVisible (maxVisible = 15, against the filtered
schema fields). -/
def TableDetailModel.ensureSchemaCursorVisible (m : TableDetailModel) :
    TableDetailModel :=
  let filteredFields := m.getFilteredSchemaFields
  let maxVisible : Int := 15
  let o1 := if m.schemaRowCursor < m.scrollOffset then m.schemaRowCursor
            else m.scrollOffset
  let o2 := if m.schemaRowCursor ≥ o1 + maxVisible
            then m.schemaRowCursor - maxVisible + 1 else o1
  let o3 := if o2 < 0 then 0 else o2
  let o4 := if intLen filteredFields > maxVisible ∧
               o3 > intLen filteredFields - maxVisible
            then intLen filteredFields - maxVisible else o3
  { m with scrollOffset := o4 }

/-- forceScrollToColumn: jump the horizontal offset so colIndex is
visible; first column pins to 0, last column pins to the right edge. -/
def TableDetailModel.forceScrollToColumn (m : TableDetailModel) (colIndex : Int) :
    TableDetailModel :=
  match m.preview with
  | none => m
  | some p =>
    if colIndex < 0 ∨ colIndex ≥ intLen p.headers then m
    else
      let colWidths := m.calculateColumnWidths
      let targetColStart := colStartOf colWidths colIndex.toNat
      let targetColEnd := targetColStart + colWidths.getD colIndex.toNat 0
      let maxDisplayWidth := m.width - 2
      if colIndex = 0 then { m with horizontalOffset := 0 }
      else if colIndex = intLen p.headers - 1 then
        let o := targetColEnd - maxDisplayWidth
        { m with horizontalOffset := if o < 0 then 0 else o }
      else
        if targetColStart < m.horizontalOffset then
          { m with horizontalOffset := targetColStart }
        else if targetColEnd > m.horizontalOffset + maxDisplayWidth then
          let o := targetColEnd - maxDisplayWidth
          { m with horizontalOffset := if o < 0 then 0 else o }
        else m

/-- handleEscapeKey: deactivate visual mode, else clear the active tab's
filter, else leave the model unchanged (so app.go bubbles the event). -/
def TableDetailModel.handleEscapeKey (m : TableDetailModel) : TableDetailModel :=
  if m.visualMode then
    { m with visualMode := false, visualStartRow := 0, visualEndRow := 0 }
  else if m.activeTab = .schemaTab ∧ m.schemaFilter ≠ "" then
    { m with schemaFilter := "", schemaRowCursor := 0 }
  else if m.activeTab = .previewTab ∧ m.previewFilter ≠ "" then
    { m with previewFilter := "", previewRowCursor := 0 }
  else m

/-- The trailing block of handleKeypress: re-clamp the cursor of the
active tab into view. -/
def TableDetailModel.ensureCursorsAfterKey (m : TableDetailModel) : TableDetailModel :=
  if m.activeTab = .previewTab ∧ m.preview.isSome then
    (m.ensurePreviewCursorVisible).ensurePreviewColumnVisible
  else if m.activeTab = .schemaTab ∧ m.schema.isSome then
    m.ensureSchemaCursorVisible
  else m

/-- handleKeypress of TableDetailModel.  The source returns (model, nil)
on every path, so only the model is produced. -/
def TableDetailModel.handleKeypress (m : TableDetailModel) (k : String) :
    TableDetailModel :=
  if matchesEscape k then m.handleEscapeKey
  else if k == "V" || k == "shift+v" then
    if m.activeTab = .previewTab ∧ m.preview.isSome then
      if !m.visualMode then
        { m with visualMode := true, visualStartRow := m.previewRowCursor,
                 visualEndRow := m.previewRowCursor }
      else
        { m with visualMode := false, visualStartRow := 0, visualEndRow := 0 }
    else m
  else if k == "/" ∧ (m.activeTab = .schemaTab ∨ m.activeTab = .previewTab) then
    if m.activeTab = .schemaTab then { m with showSchemaFilter := true }
    else { m with showPreviewFilter := true }
  else if k == "0" then
    if m.activeTab = .previewTab then
      TableDetailModel.forceScrollToColumn { m with previewColCursor := 0 } 0
    else if m.activeTab = .schemaTab then { m with horizontalOffset := 0 }
    else m
  else if k == "$" then
    if m.activeTab = .previewTab ∧ m.preview.isSome then
      match m.preview with
      | some p =>
        if intLen p.headers > 0 then
          TableDetailModel.forceScrollToColumn
            { m with previewColCursor := intLen p.headers - 1 }
            (intLen p.headers - 1)
        else m
      | none => m
    else if m.activeTab = .schemaTab then { m with horizontalOffset := 1000 }
    else m
  else if matchesTab k then
    TableDetailModel.ensureCursorsAfterKey
      { m with activeTab := nextTab m.activeTab, scrollOffset := 0,
               previewRowCursor := 0, previewColCursor := 0,
               schemaRowCursor := 0, visualMode := false }
  else if matchesShiftTab k then
    TableDetailModel.ensureCursorsAfterKey
      { m with activeTab := prevTab m.activeTab, scrollOffset := 0,
               previewRowCursor := 0, previewColCursor := 0,
               schemaRowCursor := 0, visualMode := false }
  else if matchesUp k then
    TableDetailModel.ensureCursorsAfterKey
      (if m.activeTab = .previewTab ∧ m.preview.isSome then
        if m.previewRowCursor > 0 then
          { m with previewRowCursor := m.previewRowCursor - 1,
                   visualEndRow := if m.visualMode then m.previewRowCursor - 1
                                   else m.visualEndRow }
        else m
      else if m.activeTab = .schemaTab ∧ m.schema.isSome then
        if m.schemaRowCursor > 0 then
          { m with schemaRowCursor := m.schemaRowCursor - 1 }
        else m
      else
        if m.scrollOffset > 0 then { m with scrollOffset := m.scrollOffset - 1 }
        else m)
  else if matchesDown k then
    TableDetailModel.ensureCursorsAfterKey
      (if m.activeTab = .previewTab ∧ m.preview.isSome then
        let filteredRows := m.getFilteredPreviewRows
        if m.previewRowCursor < intLen filteredRows - 1 then
          { m with previewRowCursor := m.previewRowCursor + 1,
                   visualEndRow := if m.visualMode then m.previewRowCursor + 1
                                   else m.visualEndRow }
        else m
      else if m.activeTab = .schemaTab ∧ m.schema.isSome then
        let filteredFields := m.getFilteredSchemaFields
        if m.schemaRowCursor < intLen filteredFields - 1 then
          { m with schemaRowCursor := m.schemaRowCursor + 1 }
        else m
      else { m with scrollOffset := m.scrollOffset + 1 })
  else if matchesVimTop k || matchesTop k then
    TableDetailModel.ensureCursorsAfterKey
      (if m.activeTab = .previewTab ∧ m.preview.isSome then
        if m.visualMode then
          { m with previewRowCursor := 0, visualEndRow := 0 }
        else
          { m with previewRowCursor := 0, previewColCursor := 0 }
      else if m.activeTab = .schemaTab ∧ m.schema.isSome then
        { m with schemaRowCursor := 0 }
      else { m with scrollOffset := 0 })
  else if matchesVimBottom k || matchesBottom k then
    TableDetailModel.ensureCursorsAfterKey
      (if m.activeTab = .schemaTab ∧ m.schema.isSome then
        let filteredFields := m.getFilteredSchemaFields
        if intLen filteredFields > 0 then
          { m with schemaRowCursor := intLen filteredFields - 1 }
        else m
      else if m.activeTab = .previewTab ∧ m.preview.isSome then
        let filteredRows := m.getFilteredPreviewRows
        if intLen filteredRows > 0 then
          if m.visualMode then
            { m with previewRowCursor := intLen filteredRows - 1,
                     visualEndRow := intLen filteredRows - 1 }
          else
            match m.preview with
            | some p =>
              { m with previewRowCursor := intLen filteredRows - 1,
                       previewColCursor := if intLen p.headers > 0
                                           then intLen p.headers - 1 else 0 }
            | none => m
        else { m with previewRowCursor := 0 }
      else if m.activeTab = .queryTab ∧ m.queryResult.isSome then
        match m.queryResult with
        | some qr =>
          { m with scrollOffset := if intLen qr.rows > 10 then intLen qr.rows - 10
                                   else 0 }
        | none => m
      else m)
  else if matchesPageUp k then
    TableDetailModel.ensureCursorsAfterKey
      (if m.activeTab = .previewTab ∧ m.preview.isSome then
        { m with previewRowCursor := if m.previewRowCursor - 10 < 0 then 0
                                     else m.previewRowCursor - 10 }
      else if m.activeTab = .schemaTab ∧ m.schema.isSome then
        { m with schemaRowCursor := if m.schemaRowCursor - 10 < 0 then 0
                                    else m.schemaRowCursor - 10 }
      else
        { m with scrollOffset := if m.scrollOffset - 10 < 0 then 0
                                 else m.scrollOffset - 10 })
  else if matchesPageDown k then
    TableDetailModel.ensureCursorsAfterKey
      (if m.activeTab = .previewTab ∧ m.preview.isSome then
        match m.preview with
        | some p =>
          { m with previewRowCursor := if m.previewRowCursor + 10 ≥ intLen p.rows
                                       then intLen p.rows - 1
                                       else m.previewRowCursor + 10 }
        | none => m
      else if m.activeTab = .schemaTab ∧ m.schema.isSome then
        let filteredFields := m.getFilteredSchemaFields
        { m with schemaRowCursor := if m.schemaRowCursor + 10 ≥ intLen filteredFields
                                    then intLen filteredFields - 1
                                    else m.schemaRowCursor + 10 }
      else { m with scrollOffset := m.scrollOffset + 10 })
  else if matchesLeft k then
    TableDetailModel.ensureCursorsAfterKey
      (if m.activeTab = .previewTab ∧ m.preview.isSome then
        if m.previewColCursor > 0 then
          { m with previewColCursor := m.previewColCursor - 1 }
        else m
      else
        if m.horizontalOffset > 0 then
          { m with horizontalOffset := m.horizontalOffset - 1 }
        else m)
  else if matchesRight k then
    TableDetailModel.ensureCursorsAfterKey
      (if m.activeTab = .previewTab ∧ m.preview.isSome then
        match m.preview with
        | some p =>
          if m.previewColCursor < intLen p.headers - 1 then
            { m with previewColCursor := m.previewColCursor + 1 }
          else m
        | none => m
      else { m with horizontalOffset := m.horizontalOffset + 1 })
  else if matchesSearch k then
    if m.activeTab = .schemaTab then { m with showSchemaFilter := true }
    else TableDetailModel.ensureCursorsAfterKey m
  else if matchesEnter k then
    if m.activeTab = .queryTab ∧ !m.queryInput.focused then
      { m with queryInput := { m.queryInput with focused := true } }
    else TableDetailModel.ensureCursorsAfterKey m
  else TableDetailModel.ensureCursorsAfterKey m

/-- Update of TableDetailModel restricted to key messages.  taUpd stands
for the external bubbles textarea update, which edits the query text
when the editor has focus; the navigation core never reads that text. -/
def TableDetailModel.updateKey (taUpd : String → String → String)
    (m : TableDetailModel) (k : String) : TableDetailModel :=
  if m.showSchemaFilter then
    if k == "enter" then { m with showSchemaFilter := false, schemaRowCursor := 0 }
    else if k == "esc" then
      { m with showSchemaFilter := false, schemaFilter := "", schemaRowCursor := 0 }
    else if k == "backspace" then
      { m with schemaFilter := if m.schemaFilter.length > 0
                               then m.schemaFilter.dropRight 1 else m.schemaFilter,
               schemaRowCursor := 0 }
    else
      if k.length = 1 then
        { m with schemaFilter := m.schemaFilter ++ k, schemaRowCursor := 0 }
      else m
  else if m.showPreviewFilter then
    if k == "enter" then { m with showPreviewFilter := false, previewRowCursor := 0 }
    else if k == "esc" then
      { m with showPreviewFilter := false, previewFilter := "", previewRowCursor := 0 }
    else if k == "backspace" then
      { m with previewFilter := if m.previewFilter.length > 0
                                then m.previewFilter.dropRight 1 else m.previewFilter,
               previewRowCursor := 0 }
    else
      if k.length = 1 then
        { m with previewFilter := m.previewFilter ++ k, previewRowCursor := 0 }
      else m
  else if m.activeTab = .queryTab ∧ m.queryInput.focused then
    if matchesEscape k then
      { m with queryInput := { m.queryInput with focused := false } }
    else if matchesTab k then
      { m with activeTab := nextTab m.activeTab, scrollOffset := 0,
               queryInput := { m.queryInput with focused := false } }
    else if matchesShiftTab k then
      { m with activeTab := prevTab m.activeTab, scrollOffset := 0,
               queryInput := { m.queryInput with focused := false } }
    else
      { m with queryInput := { m.queryInput with text := taUpd m.queryInput.text k } }
  else m.handleKeypress k

/-- isRowInVisualSelection. -/
def TableDetailModel.isRowInVisualSelection (m : TableDetailModel) (rowIdx : Int) :
    Bool :=
  if !m.visualMode then false
  else
    let start := min m.visualStartRow m.visualEndRow
    let stop := max m.visualStartRow m.visualEndRow
    rowIdx ≥ start ∧ rowIdx ≤ stop

/-- The detail-pane fields that the trailing ensure block of
handleKeypress never writes (it only re-clamps scrollOffset and
horizontalOffset). -/
def TableDetailModel.navProj (m : TableDetailModel) :=
  (m.previewRowCursor, m.previewColCursor, m.schemaRowCursor, m.visualMode,
   m.visualStartRow, m.visualEndRow, m.activeTab, m.preview, m.schema,
   m.previewFilter, m.schemaFilter, m.queryInput, m.showSchemaFilter,
   m.showPreviewFilter, m.currentTableName, m.queryResult, m.height, m.width)

theorem navProj_ensurePreviewCursorVisible (m : TableDetailModel) :
    (m.ensurePreviewCursorVisible).navProj = m.navProj := by
  unfold TableDetailModel.ensurePreviewCursorVisible
  split <;> rfl

theorem navProj_ensurePreviewColumnVisible (m : TableDetailModel) :
    (m.ensurePreviewColumnVisible).navProj = m.navProj := by
  unfold TableDetailModel.ensurePreviewColumnVisible
  dsimp only
  repeat' split
  all_goals rfl

theorem navProj_ensureSchemaCursorVisible (m : TableDetailModel) :
    (m.ensureSchemaCursorVisible).navProj = m.navProj := rfl

theorem navProj_ensureCursorsAfterKey (m : TableDetailModel) :
    (m.ensureCursorsAfterKey).navProj = m.navProj := by
  unfold TableDetailModel.ensureCursorsAfterKey
  split_ifs <;>
    simp [navProj_ensurePreviewCursorVisible, navProj_ensurePreviewColumnVisible,
      navProj_ensureSchemaCursorVisible]

/-- Componentwise form of the previous lemma. -/
theorem ensureAfter_fields (m : TableDetailModel) :
    (m.ensureCursorsAfterKey).previewRowCursor = m.previewRowCursor ∧
    (m.ensureCursorsAfterKey).previewColCursor = m.previewColCursor ∧
    (m.ensureCursorsAfterKey).schemaRowCursor = m.schemaRowCursor ∧
    (m.ensureCursorsAfterKey).visualMode = m.visualMode ∧
    (m.ensureCursorsAfterKey).visualStartRow = m.visualStartRow ∧
    (m.ensureCursorsAfterKey).visualEndRow = m.visualEndRow ∧
    (m.ensureCursorsAfterKey).activeTab = m.activeTab ∧
    (m.ensureCursorsAfterKey).preview = m.preview ∧
    (m.ensureCursorsAfterKey).schema = m.schema ∧
    (m.ensureCursorsAfterKey).previewFilter = m.previewFilter ∧
    (m.ensureCursorsAfterKey).schemaFilter = m.schemaFilter ∧
    (m.ensureCursorsAfterKey).queryInput = m.queryInput ∧
    (m.ensureCursorsAfterKey).showSchemaFilter = m.showSchemaFilter ∧
    (m.ensureCursorsAfterKey).showPreviewFilter = m.showPreviewFilter ∧
    (m.ensureCursorsAfterKey).currentTableName = m.currentTableName := by
  have h := navProj_ensureCursorsAfterKey m
  unfold TableDetailModel.navProj at h
  simp only [Prod.mk.injEq] at h
  tauto

theorem eAK_previewRowCursor (m : TableDetailModel) :
    (m.ensureCursorsAfterKey).previewRowCursor = m.previewRowCursor :=
  (ensureAfter_fields m).1

theorem eAK_previewColCursor (m : TableDetailModel) :
    (m.ensureCursorsAfterKey).previewColCursor = m.previewColCursor :=
  (ensureAfter_fields m).2.1

theorem eAK_schemaRowCursor (m : TableDetailModel) :
    (m.ensureCursorsAfterKey).schemaRowCursor = m.schemaRowCursor :=
  (ensureAfter_fields m).2.2.1

theorem eAK_visualMode (m : TableDetailModel) :
    (m.ensureCursorsAfterKey).visualMode = m.visualMode :=
  (ensureAfter_fields m).2.2.2.1

theorem eAK_visualStartRow (m : TableDetailModel) :
    (m.ensureCursorsAfterKey).visualStartRow = m.visualStartRow :=
  (ensureAfter_fields m).2.2.2.2.1

theorem eAK_visualEndRow (m : TableDetailModel) :
    (m.ensureCursorsAfterKey).visualEndRow = m.visualEndRow :=
  (ensureAfter_fields m).2.2.2.2.2.1

theorem eAK_activeTab (m : TableDetailModel) :
    (m.ensureCursorsAfterKey).activeTab = m.activeTab :=
  (ensureAfter_fields m).2.2.2.2.2.2.1

theorem eAK_preview (m : TableDetailModel) :
    (m.ensureCursorsAfterKey).preview = m.preview :=
  (ensureAfter_fields m).2.2.2.2.2.2.2.1

theorem eAK_schema (m : TableDetailModel) :
    (m.ensureCursorsAfterKey).schema = m.schema :=
  (ensureAfter_fields m).2.2.2.2.2.2.2.2.1

theorem eAK_previewFilter (m : TableDetailModel) :
    (m.ensureCursorsAfterKey).previewFilter = m.previewFilter :=
  (ensureAfter_fields m).2.2.2.2.2.2.2.2.2.1

theorem eAK_schemaFilter (m : TableDetailModel) :
    (m.ensureCursorsAfterKey).schemaFilter = m.schemaFilter :=
  (ensureAfter_fields m).2.2.2.2.2.2.2.2.2.2.1

theorem eAK_queryInput (m : TableDetailModel) :
    (m.ensureCursorsAfterKey).queryInput = m.queryInput :=
  (ensureAfter_fields m).2.2.2.2.2.2.2.2.2.2.2.1

theorem eAK_showSchemaFilter (m : TableDetailModel) :
    (m.ensureCursorsAfterKey).showSchemaFilter = m.showSchemaFilter :=
  (ensureAfter_fields m).2.2.2.2.2.2.2.2.2.2.2.2.1

theorem eAK_showPreviewFilter (m : TableDetailModel) :
    (m.ensureCursorsAfterKey).showPreviewFilter = m.showPreviewFilter :=
  (ensureAfter_fields m).2.2.2.2.2.2.2.2.2.2.2.2.2.1

theorem eAK_currentTableName (m : TableDetailModel) :
    (m.ensureCursorsAfterKey).currentTableName = m.currentTableName :=
  (ensureAfter_fields m).2.2.2.2.2.2.2.2.2.2.2.2.2.2

/-! ## SearchModel, ProjectSelectorModel and the top-level Model (app.go) -/

/-- SearchModel: the global search input. -/
structure SearchModel where
  input : String
  deriving Repr, DecidableEq

/-- NewSearchModel. -/
def SearchModel.new : SearchModel := { input := "" }

/-- SearchModel.Update on a key message. -/
def SearchModel.updateKey (m : SearchModel) (k : String) : SearchModel :=
  if k == "backspace" then
    if m.input.length > 0 then { m with input := m.input.dropRight 1 } else m
  else if k == "ctrl+u" then { m with input := "" }
  else if k.length = 1 then { m with input := m.input ++ k }
  else m

/-- ProjectSelectorModel. -/
structure ProjectSelectorModel where
  projects : List Project
  cursor : Int
  filter : String
  deriving Repr, DecidableEq

/-- NewProjectSelectorModel. -/
def ProjectSelectorModel.new : ProjectSelectorModel where
  projects := []
  cursor := 0
  filter := ""

/-- getFilteredProjects. -/
def ProjectSelectorModel.getFilteredProjects (m : ProjectSelectorModel) :
    List Project :=
  if m.filter == "" then m.projects
  else m.projects.filter (fun p =>
    strContains (goToLower p.id) (goToLower m.filter) ||
    strContains (goToLower p.name) (goToLower m.filter))

/-- The focus states of the top-level Model. -/
inductive FocusState where
  | datasetList
  | tableDetail
  | projectSelector
  | search
  deriving Repr, DecidableEq

/-- The effects a tea.Cmd of the source dispatches, tagged with the
selection data the source captures synchronously at dispatch time. -/
inductive Cmd where
  | fetchDatasets
  | fetchTables (datasetId : String)
  | fetchSchema (datasetId tableId : String)
  | fetchPreview (datasetId tableId : String)
  | fetchProjects
  | switchProject (projectId : String)
  | copyText (text : String)
  | emitProjectSelected (projectId : String) (projectName : String)
  | quit
  deriving Repr, DecidableEq

/-- ProjectSelectorModel.handleKeypress. -/
def ProjectSelectorModel.handleKeypress (m : ProjectSelectorModel) (k : String) :
    ProjectSelectorModel × List Cmd :=
  let filteredProjects := m.getFilteredProjects
  if matchesUp k then
    (if m.cursor > 0 then { m with cursor := m.cursor - 1 } else m, [])
  else if matchesDown k then
    (if m.cursor < intLen filteredProjects - 1 then
       { m with cursor := m.cursor + 1 } else m, [])
  else if matchesEnter k then
    if intLen filteredProjects > 0 ∧ m.cursor < intLen filteredProjects then
      match goGet filteredProjects m.cursor with
      | some p => (m, [Cmd.emitProjectSelected p.id p.name])
      | none => (m, [])
    else (m, [])
  else (m, [])

/-- The messages of messages.go that the navigation core consumes;
errors carry their rendered message text. -/
inductive Msg where
  | key (k : String)
  | datasetsLoaded (datasets : List Dataset)
  | tablesLoaded (datasetId : String) (tables : List Table)
  | tableSchemaLoaded (datasetId tableId : String) (schema : TableSchema)
  | tablePreviewLoaded (datasetId tableId : String) (preview : TablePreview)
  | errorMsg (e : String)
  | copySuccess (text : String)
  | projectSelected (projectId : String) (projectName : String)
  | projectSwitched (projectId : String)

/-- The top-level Model of app.go; projectID stands for
bqClient.GetProjectID(). -/
structure Model where
  projectID : String
  datasetList : DatasetListModel
  tableDetail : TableDetailModel
  projectSelector : ProjectSelectorModel
  search : SearchModel
  focus : FocusState
  showHelp : Bool
  width : Int
  height : Int
  ready : Bool
  err : Option String
  statusMessage : String
  showProjectList : Bool
  loadingDatasets : Bool
  loadingTables : Bool
  loadingSchema : Bool
  loadingPreview : Bool
  lastSelectedDatasetID : String
  lastSelectedTableID : String
  deriving Repr

/-- NewModel. -/
def Model.new (projectID : String) : Model where
  projectID := projectID
  datasetList := DatasetListModel.new
  tableDetail := TableDetailModel.new
  projectSelector := ProjectSelectorModel.new
  search := SearchModel.new
  focus := .datasetList
  showHelp := false
  width := 0
  height := 0
  ready := false
  err := none
  statusMessage := ""
  showProjectList := false
  loadingDatasets := false
  loadingTables := false
  loadingSchema := false
  loadingPreview := false
  lastSelectedDatasetID := ""
  lastSelectedTableID := ""

/-- loadTables: captures the selected dataset id at dispatch time. -/
def Model.loadTables (m : Model) : List Cmd :=
  match m.datasetList.selectedDataset with
  | none => []
  | some d => [Cmd.fetchTables d.id]

/-- loadTableSchema: captures the selected table at dispatch time. -/
def Model.loadTableSchema (m : Model) : List Cmd :=
  match m.datasetList.selectedTable with
  | none => []
  | some t => [Cmd.fetchSchema t.datasetID t.id]

/-- loadTablePreview: captures the selected table at dispatch time. -/
def Model.loadTablePreview (m : Model) : List Cmd :=
  match m.datasetList.selectedTable with
  | none => []
  | some t => [Cmd.fetchPreview t.datasetID t.id]

/-- handleSearchInput: keys while the global search has focus. -/
def Model.handleSearchInput (m : Model) (k : String) : Model × List Cmd :=
  if k == "enter" then
    ({ m with focus := .datasetList,
              datasetList := { m.datasetList with filter := m.search.input } }, [])
  else if k == "esc" then
    ({ m with focus := .datasetList, search := SearchModel.new,
              datasetList := { m.datasetList with filter := "" } }, [])
  else
    ({ m with search := m.search.updateKey k }, [])

/-- handleCopy: the y / ctrl+y copy action of app.go. -/
def Model.handleCopy (m : Model) : Model × List Cmd :=
  if m.focus = .datasetList ∧ m.datasetList.selectedTable.isSome then
    match m.datasetList.selectedTable with
    | some t =>
      (m, [Cmd.copyText (m.projectID ++ "." ++ t.datasetID ++ "." ++ t.id)])
    | none => (m, [])
  else if m.focus = .tableDetail ∧ m.tableDetail.activeTab = .previewTab ∧
          m.tableDetail.preview.isSome then
    if m.tableDetail.visualMode then
      let filteredRows := m.tableDetail.getFilteredPreviewRows
      let start := min m.tableDetail.visualStartRow m.tableDetail.visualEndRow
      let stop := max m.tableDetail.visualStartRow m.tableDetail.visualEndRow
      let selectedData := (filteredRows.enum.filter (fun ir =>
          start ≤ (ir.1 : Int) ∧ (ir.1 : Int) ≤ stop)).map
        (fun ir => String.intercalate "\t" ir.2)
      if selectedData.length > 0 then
        (m, [Cmd.copyText (String.intercalate "\n" selectedData)])
      else (m, [])
    else
      let filteredRows := m.tableDetail.getFilteredPreviewRows
      if intLen filteredRows > m.tableDetail.previewRowCursor then
        match goGet filteredRows m.tableDetail.previewRowCursor with
        | some row =>
          if intLen row > m.tableDetail.previewColCursor then
            match goGet row m.tableDetail.previewColCursor with
            | some cell => (m, [Cmd.copyText cell])
            | none => (m, [])
          else (m, [])
        | none => (m, [])
      else (m, [])
  else if m.focus = .tableDetail ∧ m.tableDetail.activeTab = .schemaTab ∧
          m.tableDetail.schema.isSome then
    let filteredFields := m.tableDetail.getFilteredSchemaFields
    if intLen filteredFields > m.tableDetail.schemaRowCursor then
      match goGet filteredFields m.tableDetail.schemaRowCursor with
      | some f => (m, [Cmd.copyText f.name])
      | none => (m, [])
    else (m, [])
  else (m, [])

/-- The dataset-changed fall-through of updateFocusedComponent: issue a
Tables fetch and clear stale table detail when the selected dataset id
differs from the last one fetched. -/
def Model.afterHoverFallthrough (m1 : Model) : Model × List Cmd :=
  match m1.datasetList.selectedDataset with
  | some d =>
    if m1.lastSelectedDatasetID ≠ d.id then
      let m2 := { m1 with
        lastSelectedDatasetID := d.id,
        lastSelectedTableID := "",
        tableDetail := { m1.tableDetail with
          schema := none, preview := none, currentTableName := "" },
        loadingTables := true }
      (m2, m2.loadTables)
    else (m1, [])
  | none => (m1, [])

/-- updateFocusedComponent: route a key to the focused component; in the
browser this is where Schema+Preview and Tables fetches are decided. -/
def Model.updateFocusedComponent (taUpd : String → String → String)
    (m : Model) (k : String) : Model × List Cmd :=
  match m.focus with
  | .datasetList =>
    let dl := m.datasetList.handleKeypress k
    let m1 := { m with datasetList := dl }
    if dl.tableSelected then
      let m2 := { m1 with datasetList := { dl with tableSelected := false },
                          focus := .tableDetail }
      (m2, m2.loadTableSchema ++ m2.loadTablePreview)
    else
      match dl.selectedDataset, dl.selectedTable with
      | some d, some t =>
        let tableKey := d.id ++ "." ++ t.id
        if m1.lastSelectedTableID ≠ tableKey then
          let m2 := { m1 with lastSelectedTableID := tableKey,
                              loadingSchema := true, loadingPreview := true }
          (m2, m2.loadTableSchema ++ m2.loadTablePreview)
        else
          Model.afterHoverFallthrough m1
      | _, _ => Model.afterHoverFallthrough m1
  | .tableDetail =>
    ({ m with tableDetail := m.tableDetail.updateKey taUpd k }, [])
  | .projectSelector =>
    let (ps, cmds) := m.projectSelector.handleKeypress k
    ({ m with projectSelector := ps }, cmds)
  | .search => (m, [])

/-- Model.Update: the single-threaded message processor of app.go.
Key messages go through the global bindings first; loaded-data messages
pass the staleness gate that compares the message key against the
selection current at processing time. -/
def Model.update (taUpd : String → String → String) (m : Model) (msg : Msg) :
    Model × List Cmd :=
  match msg with
  | .key k =>
    if m.focus = .search then m.handleSearchInput k
    else if matchesQuit k then (m, [Cmd.quit])
    else if matchesHelp k then ({ m with showHelp := !m.showHelp }, [])
    else if matchesProjectList k then
      if m.focus ≠ .projectSelector then
        ({ m with focus := .projectSelector, showProjectList := true },
         [Cmd.fetchProjects])
      else (m, [])
    else if matchesEscape k then
      if m.showProjectList then
        ({ m with showProjectList := false, focus := .datasetList }, [])
      else if m.showHelp then ({ m with showHelp := false }, [])
      else if m.focus = .tableDetail then
        let updated := m.tableDetail.handleKeypress k
        if updated.visualMode ≠ m.tableDetail.visualMode ∨
           updated.schemaFilter ≠ m.tableDetail.schemaFilter ∨
           updated.previewFilter ≠ m.tableDetail.previewFilter ∨
           updated.showSchemaFilter ≠ m.tableDetail.showSchemaFilter ∨
           updated.showPreviewFilter ≠ m.tableDetail.showPreviewFilter then
          ({ m with tableDetail := updated }, [])
        else ({ m with focus := .datasetList }, [])
      else (m, [])
    else if matchesTab k || matchesShiftTab k then
      if m.focus = .tableDetail then Model.updateFocusedComponent taUpd m k
      else (m, [])
    else if matchesSearch k then
      if m.focus = .tableDetail ∧ m.tableDetail.activeTab = .schemaTab then
        Model.updateFocusedComponent taUpd m k
      else ({ m with focus := .search, search := SearchModel.new }, [])
    else if matchesCopy k || matchesCopyAlt k then m.handleCopy
    else Model.updateFocusedComponent taUpd m k
  | .datasetsLoaded ds =>
    ({ m with datasetList := { m.datasetList with datasets := ds },
              loadingDatasets := false,
              statusMessage := "Loaded " ++ toString ds.length ++ " datasets" }, [])
  | .tablesLoaded dId ts =>
    match m.datasetList.selectedDataset with
    | some sd =>
      if sd.id = dId then
        ({ m with datasetList := { m.datasetList with tables := ts },
                  loadingTables := false,
                  statusMessage := "Loaded " ++ toString ts.length ++
                    " tables from " ++ dId }, [])
      else
        ({ m with statusMessage := "Ignored stale table response for " ++ dId }, [])
    | none =>
      ({ m with statusMessage := "Ignored stale table response for " ++ dId }, [])
  | .tableSchemaLoaded dId tId sch =>
    match m.datasetList.selectedTable with
    | some st =>
      if st.datasetID = dId ∧ st.id = tId then
        ({ m with
            tableDetail := { m.tableDetail with
              schema := some sch, currentTableName := tId, schemaRowCursor := 0 },
            loadingSchema := false,
            statusMessage := "Loaded schema for " ++ dId ++ "." ++ tId }, [])
      else
        ({ m with statusMessage :=
            "Ignored stale schema response for " ++ dId ++ "." ++ tId }, [])
    | none =>
      ({ m with statusMessage :=
          "Ignored stale schema response for " ++ dId ++ "." ++ tId }, [])
  | .tablePreviewLoaded dId tId p =>
    match m.datasetList.selectedTable with
    | some st =>
      if st.datasetID = dId ∧ st.id = tId then
        ({ m with
            tableDetail := { m.tableDetail with
              preview := some p,
              currentTableName := if m.tableDetail.currentTableName = "" then tId
                                  else m.tableDetail.currentTableName,
              previewRowCursor := 0, previewColCursor := 0 },
            loadingPreview := false,
            statusMessage := "Loaded preview for " ++ dId ++ "." ++ tId }, [])
      else
        ({ m with statusMessage :=
            "Ignored stale preview response for " ++ dId ++ "." ++ tId }, [])
    | none =>
      ({ m with statusMessage :=
          "Ignored stale preview response for " ++ dId ++ "." ++ tId }, [])
  | .errorMsg e =>
    ({ m with err := some e, statusMessage := "Error: " ++ e }, [])
  | .copySuccess t =>
    ({ m with statusMessage := "Copied: " ++ t }, [])
  | .projectSelected pid _ => (m, [Cmd.switchProject pid])
  | .projectSwitched pid =>
    ({ m with projectID := pid,
              statusMessage := "Switched to project: " ++ pid,
              showProjectList := false, focus := .datasetList,
              datasetList := DatasetListModel.new,
              tableDetail := TableDetailModel.new,
              loadingDatasets := true,
              lastSelectedDatasetID := "", lastSelectedTableID := "" },
     [Cmd.fetchDatasets])

/-- A concrete stand-in for the external textarea transition, used only
to instantiate closed statements; the code paths they exercise never
reach the textarea. -/
def textareaId : String → String → String := fun t _ => t

/-! ## Claim C1: the staleness gate for Schema and Preview results -/

/-- The Go acceptance condition of the gate: the currently selected
table matches the message key at both granularities. -/
def Model.selectedTableMatches (m : Model) (dId tId : String) : Bool :=
  match m.datasetList.selectedTable with
  | some st => st.datasetID = dId ∧ st.id = tId
  | none => false

theorem selectedTableMatches_iff (m : Model) (dId tId : String) :
    m.selectedTableMatches dId tId = true ↔
      ∃ st, m.datasetList.selectedTable = some st ∧
        st.datasetID = dId ∧ st.id = tId := by
  unfold Model.selectedTableMatches
  rcases m.datasetList.selectedTable with _ | st <;> simp

/-- A session whose current selection is table t of dataset d, with an
empty status bar. -/
def staleProbeModel : Model :=
  { Model.new "p" with
    datasetList := { DatasetListModel.new with selectedTable := some ⟨"t", "d"⟩ } }

/-- Claim C1 counterexample: processing a stale schema result does NOT
leave the session state unchanged — the status message is overwritten
with a stale-drop notice, so the resulting Model differs from the input
Model (the detail pane itself is untouched, see the amended theorem). -/
theorem staleSchema_mutates_statusMessage :
    (Model.update textareaId staleProbeModel
        (.tableSchemaLoaded "d2" "t2" ⟨[]⟩)).1.statusMessage =
      "Ignored stale schema response for d2.t2" ∧
    staleProbeModel.statusMessage = "" ∧
    staleProbeModel.selectedTableMatches "d2" "t2" = false ∧
    (Model.update textareaId staleProbeModel
        (.tableSchemaLoaded "d2" "t2" ⟨[]⟩)).1 ≠ staleProbeModel := by
  refine ⟨rfl, rfl, rfl, ?_⟩
  intro h
  have h2 := congrArg Model.statusMessage h
  rw [show (Model.update textareaId staleProbeModel
        (.tableSchemaLoaded "d2" "t2" ⟨[]⟩)).1.statusMessage =
      "Ignored stale schema response for d2.t2" from rfl,
    show staleProbeModel.statusMessage = "" from rfl] at h2
  exact absurd h2 (by decide)

/-- Claim C1, amended: on a key mismatch the detail pane, the browser
list, the loading flags and the error field are all unchanged and no
error is surfaced — only the status message is set to a stale-drop
notice and no command is dispatched; on a match the result is merged
into the detail pane and the corresponding loading flag is cleared. -/
theorem staleness_gate_schema_preview (taUpd : String → String → String)
    (m : Model) (dId tId : String) (sch : TableSchema) (p : TablePreview) :
    (m.selectedTableMatches dId tId = false →
      (Model.update taUpd m (.tableSchemaLoaded dId tId sch)).1.tableDetail
          = m.tableDetail ∧
      (Model.update taUpd m (.tableSchemaLoaded dId tId sch)).1.datasetList
          = m.datasetList ∧
      (Model.update taUpd m (.tableSchemaLoaded dId tId sch)).1.err = m.err ∧
      (Model.update taUpd m (.tableSchemaLoaded dId tId sch)).1.loadingSchema
          = m.loadingSchema ∧
      (Model.update taUpd m (.tableSchemaLoaded dId tId sch)).1.loadingPreview
          = m.loadingPreview ∧
      (Model.update taUpd m (.tableSchemaLoaded dId tId sch)).1.focus = m.focus ∧
      (Model.update taUpd m (.tableSchemaLoaded dId tId sch)).2 = [] ∧
      (Model.update taUpd m (.tableSchemaLoaded dId tId sch)).1.statusMessage
          = "Ignored stale schema response for " ++ dId ++ "." ++ tId) ∧
    (m.selectedTableMatches dId tId = true →
      (Model.update taUpd m (.tableSchemaLoaded dId tId sch)).1.tableDetail.schema
          = some sch ∧
      (Model.update taUpd m
          (.tableSchemaLoaded dId tId sch)).1.tableDetail.currentTableName = tId ∧
      (Model.update taUpd m
          (.tableSchemaLoaded dId tId sch)).1.tableDetail.schemaRowCursor = 0 ∧
      (Model.update taUpd m (.tableSchemaLoaded dId tId sch)).1.loadingSchema
          = false ∧
      (Model.update taUpd m (.tableSchemaLoaded dId tId sch)).1.err = m.err ∧
      (Model.update taUpd m (.tableSchemaLoaded dId tId sch)).2 = []) ∧
    (m.selectedTableMatches dId tId = false →
      (Model.update taUpd m (.tablePreviewLoaded dId tId p)).1.tableDetail
          = m.tableDetail ∧
      (Model.update taUpd m (.tablePreviewLoaded dId tId p)).1.datasetList
          = m.datasetList ∧
      (Model.update taUpd m (.tablePreviewLoaded dId tId p)).1.err = m.err ∧
      (Model.update taUpd m (.tablePreviewLoaded dId tId p)).1.loadingPreview
          = m.loadingPreview ∧
      (Model.update taUpd m (.tablePreviewLoaded dId tId p)).1.loadingSchema
          = m.loadingSchema ∧
      (Model.update taUpd m (.tablePreviewLoaded dId tId p)).1.focus = m.focus ∧
      (Model.update taUpd m (.tablePreviewLoaded dId tId p)).2 = [] ∧
      (Model.update taUpd m (.tablePreviewLoaded dId tId p)).1.statusMessage
          = "Ignored stale preview response for " ++ dId ++ "." ++ tId) ∧
    (m.selectedTableMatches dId tId = true →
      (Model.update taUpd m (.tablePreviewLoaded dId tId p)).1.tableDetail.preview
          = some p ∧
      (Model.update taUpd m
          (.tablePreviewLoaded dId tId p)).1.tableDetail.previewRowCursor = 0 ∧
      (Model.update taUpd m
          (.tablePreviewLoaded dId tId p)).1.tableDetail.previewColCursor = 0 ∧
      (Model.update taUpd m (.tablePreviewLoaded dId tId p)).1.loadingPreview
          = false ∧
      (Model.update taUpd m (.tablePreviewLoaded dId tId p)).1.err = m.err ∧
      (Model.update taUpd m (.tablePreviewLoaded dId tId p)).2 = []) := by
  have fromMismatch : m.selectedTableMatches dId tId = false →
      ∀ st, m.datasetList.selectedTable = some st →
        ¬(st.datasetID = dId ∧ st.id = tId) := by
    intro hmis st hsel hand
    have h := (selectedTableMatches_iff m dId tId).2 ⟨st, hsel, hand.1, hand.2⟩
    rw [hmis] at h
    exact absurd h (by decide)
  refine ⟨fun hmis => ?_, fun hmat => ?_, fun hmis => ?_, fun hmat => ?_⟩
  · rcases hsel : m.datasetList.selectedTable with _ | st
    · simp [Model.update, hsel]
    · simp [Model.update, hsel, fromMismatch hmis st hsel]
  · rcases (selectedTableMatches_iff m dId tId).1 hmat with ⟨st, hsel, h1, h2⟩
    simp [Model.update, hsel, h1, h2]
  · rcases hsel : m.datasetList.selectedTable with _ | st
    · simp [Model.update, hsel]
    · simp [Model.update, hsel, fromMismatch hmis st hsel]
  · rcases (selectedTableMatches_iff m dId tId).1 hmat with ⟨st, hsel, h1, h2⟩
    simp [Model.update, hsel, h1, h2]

/-- The C1 theorem applied to a concrete matching session. -/
theorem staleness_gate_schema_preview_witness :
    staleProbeModel.selectedTableMatches "d" "t" = true ∧
    ((Model.update textareaId staleProbeModel
        (.tableSchemaLoaded "d" "t" ⟨[]⟩)).1.tableDetail.schema =
          some (⟨[]⟩ : TableSchema) ∧
      (Model.update textareaId staleProbeModel
          (.tableSchemaLoaded "d" "t" ⟨[]⟩)).1.tableDetail.currentTableName = "t" ∧
      (Model.update textareaId staleProbeModel
          (.tableSchemaLoaded "d" "t" ⟨[]⟩)).1.tableDetail.schemaRowCursor = 0 ∧
      (Model.update textareaId staleProbeModel
          (.tableSchemaLoaded "d" "t" ⟨[]⟩)).1.loadingSchema = false ∧
      (Model.update textareaId staleProbeModel
          (.tableSchemaLoaded "d" "t" ⟨[]⟩)).1.err = staleProbeModel.err ∧
      (Model.update textareaId staleProbeModel
          (.tableSchemaLoaded "d" "t" ⟨[]⟩)).2 = []) :=
  ⟨rfl, (staleness_gate_schema_preview textareaId staleProbeModel "d" "t" ⟨[]⟩
      ⟨[], []⟩).2.1 rfl⟩

/-! ## Claim C2: does submitting the search reset cursor and viewport? -/

/-- A session in the search state with input that filters [a, ab] down
to [ab], while the browser cursor sits at index 1. -/
def searchSubmitModel : Model :=
  { Model.new "p" with
    focus := .search,
    search := { input := "b" },
    datasetList := { DatasetListModel.new with
      datasets := [⟨"a"⟩, ⟨"ab"⟩], cursor := 1 } }

/-- Claim C2 failing input: submitting the search applies the filter
(the filtered result [ab] is non-empty) but leaves the cursor at 1 —
out of bounds of the 1-element filtered list — and does not reset it to
0 as the spec requires; the viewport offset happens to stay 0 here only
because it already was 0. -/
theorem searchSubmit_does_not_reset_cursor :
    (Model.update textareaId searchSubmitModel (.key "enter")).1.datasetList.filter
        = "b" ∧
    (Model.update textareaId searchSubmitModel
        (.key "enter")).1.datasetList.getFilteredDatasets = [⟨"ab"⟩] ∧
    (Model.update textareaId searchSubmitModel (.key "enter")).1.datasetList.cursor
        = 1 ∧
    (Model.update textareaId searchSubmitModel (.key "enter")).1.focus
        = .datasetList := by
  decide

/-! ## Claim C10: totality of the truncate cell-rendering helper -/

/-- truncate from table_detail.go, over Go byte strings modelled as
character lists; the Go slice s[:length-3] panics when length-3 is
outside [0, len(s)], modelled as none. -/
def truncate (s : List Char) (length : Int) : Option (List Char) :=
  if intLen s ≤ length then some s
  else if 0 ≤ length - 3 ∧ length - 3 ≤ intLen s then
    some (s.take (length - 3).toNat ++ ['.', '.', '.'])
  else none

/-- Claim C10 counterexample: truncate is not total — on the two-byte
string ab with length 1 the Go code evaluates s[:-2] and panics. -/
theorem truncate_counterexample :
    truncate "ab".toList 1 = none ∧ ¬ intLen "ab".toList ≤ 1 := by
  decide

/-- Claim C10, amended: truncate returns s unchanged when len(s) ≤
length; when len(s) > length it returns, provided length ≥ 3, a string
of exactly length bytes ending in three dots; for length < 3 with
len(s) > length it panics. -/
theorem truncate_amended (s : List Char) (len : Int) :
    (intLen s ≤ len → truncate s len = some s) ∧
    (intLen s > len → 3 ≤ len →
      ∃ r, truncate s len = some r ∧ intLen r = len ∧
        List.IsSuffix ['.', '.', '.'] r) ∧
    (intLen s > len → len < 3 → truncate s len = none) := by
  unfold truncate
  refine ⟨fun hle => by rw [if_pos hle], fun hgt h3 => ?_, fun hgt h3 => ?_⟩
  · rw [if_neg (by omega), if_pos (by unfold intLen at hgt ⊢; omega)]
    refine ⟨_, rfl, ?_, ⟨_, rfl⟩⟩
    have hlen : (s.take (len - 3).toNat).length = (len - 3).toNat := by
      rw [List.length_take]
      unfold intLen at hgt
      omega
    unfold intLen
    rw [List.length_append, hlen]
    simp
    omega
  · rw [if_neg (by omega), if_neg (by omega)]

/-- The C10 theorem applied to the five-byte string hello with
length 4. -/
theorem truncate_amended_witness :
    (intLen "hello".toList > 4 ∧ (3 : Int) ≤ 4) ∧
    (∃ r, truncate "hello".toList 4 = some r ∧ intLen r = 4 ∧
      List.IsSuffix ['.', '.', '.'] r) :=
  ⟨by decide, (truncate_amended "hello".toList 4).2.1 (by decide) (by decide)⟩

/-! ## Claim C9: dataset change fetches tables and clears detail state -/

/-- Claim C9: whenever processing a key in the browser leaves a newly
selected dataset (no table selected, no explicit table selection), the
step dispatches exactly one Tables fetch keyed by the new dataset id
and clears the displayed schema, preview and table name synchronously —
in the same update step, before any fetch result message can arrive —
while the browser list state (hence its cursor) and the focus state are
not touched by that clearing. -/
theorem dataset_change_clears_and_fetches (taUpd : String → String → String)
    (m : Model) (k : String) (d : Dataset)
    (hfoc : m.focus = .datasetList)
    (hts : (m.datasetList.handleKeypress k).tableSelected = false)
    (hsd : (m.datasetList.handleKeypress k).selectedDataset = some d)
    (hst : (m.datasetList.handleKeypress k).selectedTable = none)
    (hnew : m.lastSelectedDatasetID ≠ d.id) :
    (Model.updateFocusedComponent taUpd m k).2 = [Cmd.fetchTables d.id] ∧
    (Model.updateFocusedComponent taUpd m k).1.tableDetail.schema = none ∧
    (Model.updateFocusedComponent taUpd m k).1.tableDetail.preview = none ∧
    (Model.updateFocusedComponent taUpd m k).1.tableDetail.currentTableName = "" ∧
    (Model.updateFocusedComponent taUpd m k).1.loadingTables = true ∧
    (Model.updateFocusedComponent taUpd m k).1.lastSelectedDatasetID = d.id ∧
    (Model.updateFocusedComponent taUpd m k).1.lastSelectedTableID = "" ∧
    (Model.updateFocusedComponent taUpd m k).1.focus = m.focus ∧
    (Model.updateFocusedComponent taUpd m k).1.datasetList
        = m.datasetList.handleKeypress k ∧
    (Model.updateFocusedComponent taUpd m k).1.tableDetail.activeTab
        = m.tableDetail.activeTab ∧
    (Model.updateFocusedComponent taUpd m k).1.tableDetail.schemaFilter
        = m.tableDetail.schemaFilter ∧
    (Model.updateFocusedComponent taUpd m k).1.tableDetail.previewFilter
        = m.tableDetail.previewFilter := by
  simp [Model.updateFocusedComponent, Model.afterHoverFallthrough,
    Model.loadTables, hfoc, hts, hsd, hst, hnew]

/-- The C9 theorem applied to a concrete session: moving the cursor
down from dataset d1 onto dataset d2. -/
def datasetHoverModel : Model :=
  { Model.new "p" with
    focus := .datasetList,
    lastSelectedDatasetID := "d1",
    datasetList := { DatasetListModel.new with
      datasets := [⟨"d1"⟩, ⟨"d2"⟩], cursor := 0,
      selectedDataset := some ⟨"d1"⟩ },
    tableDetail := { TableDetailModel.new with
      currentTableName := "x", schema := some ⟨[]⟩ } }

theorem dataset_change_clears_and_fetches_witness :
    (datasetHoverModel.focus = .datasetList ∧
     (datasetHoverModel.datasetList.handleKeypress "j").tableSelected = false ∧
     (datasetHoverModel.datasetList.handleKeypress "j").selectedDataset
        = some ⟨"d2"⟩ ∧
     (datasetHoverModel.datasetList.handleKeypress "j").selectedTable = none ∧
     datasetHoverModel.lastSelectedDatasetID ≠ "d2") ∧
    ((Model.updateFocusedComponent textareaId datasetHoverModel "j").2
        = [Cmd.fetchTables "d2"] ∧
     (Model.updateFocusedComponent textareaId datasetHoverModel
        "j").1.tableDetail.schema = none ∧
     (Model.updateFocusedComponent textareaId datasetHoverModel
        "j").1.tableDetail.preview = none ∧
     (Model.updateFocusedComponent textareaId datasetHoverModel
        "j").1.tableDetail.currentTableName = "" ∧
     (Model.updateFocusedComponent textareaId datasetHoverModel
        "j").1.loadingTables = true ∧
     (Model.updateFocusedComponent textareaId datasetHoverModel
        "j").1.lastSelectedDatasetID = "d2" ∧
     (Model.updateFocusedComponent textareaId datasetHoverModel
        "j").1.lastSelectedTableID = "" ∧
     (Model.updateFocusedComponent textareaId datasetHoverModel "j").1.focus
        = datasetHoverModel.focus ∧
     (Model.updateFocusedComponent textareaId datasetHoverModel "j").1.datasetList
        = datasetHoverModel.datasetList.handleKeypress "j" ∧
     (Model.updateFocusedComponent textareaId datasetHoverModel
        "j").1.tableDetail.activeTab = datasetHoverModel.tableDetail.activeTab ∧
     (Model.updateFocusedComponent textareaId datasetHoverModel
        "j").1.tableDetail.schemaFilter
          = datasetHoverModel.tableDetail.schemaFilter ∧
     (Model.updateFocusedComponent textareaId datasetHoverModel
        "j").1.tableDetail.previewFilter
          = datasetHoverModel.tableDetail.previewFilter) :=
  ⟨⟨by decide, by decide, by decide, by decide, by decide⟩,
    dataset_change_clears_and_fetches textareaId datasetHoverModel "j" ⟨"d2"⟩
      (by decide) (by decide) (by decide) (by decide) (by decide)⟩

/-! ## Claim C7: symmetry of the visual selection range -/

theorem getFilteredPreviewRows_nofilter (m : TableDetailModel) (p : TablePreview)
    (hp : m.preview = some p) (hfil : m.previewFilter = "") :
    m.getFilteredPreviewRows = p.rows := by
  simp [TableDetailModel.getFilteredPreviewRows, hp, hfil]

/-- Toggling visual mode on (the V key of handleKeypress) anchors both
range markers at the preview row cursor. -/
theorem toggle_visual_on (m : TableDetailModel)
    (htab : m.activeTab = .previewTab) (hp : m.preview.isSome = true)
    (hvm : m.visualMode = false) :
    m.handleKeypress "V" =
      { m with visualMode := true, visualStartRow := m.previewRowCursor,
               visualEndRow := m.previewRowCursor } := by
  unfold TableDetailModel.handleKeypress
  simp [matchesEscape, htab, hp, hvm]

/-- Invariant during visual-mode cursor navigation: same preview, same
anchor, and the moving end of the range tracks the cursor. -/
def VisNav (p : TablePreview) (a : Int) (m : TableDetailModel) : Prop :=
  m.preview = some p ∧ m.activeTab = .previewTab ∧ m.visualMode = true ∧
  m.previewFilter = "" ∧ m.visualStartRow = a ∧
  m.visualEndRow = m.previewRowCursor

instance (p : TablePreview) (a : Int) (m : TableDetailModel) :
    Decidable (VisNav p a m) := by
  unfold VisNav
  infer_instance

theorem visnav_down_step (p : TablePreview) (a : Int) (m : TableDetailModel)
    (h : VisNav p a m) :
    VisNav p a (m.handleKeypress "down") ∧
    (m.handleKeypress "down").previewRowCursor =
      (if m.previewRowCursor < intLen p.rows - 1 then m.previewRowCursor + 1
       else m.previewRowCursor) := by
  obtain ⟨hp, htab, hvm, hfil, hanchor, hend⟩ := h
  unfold TableDetailModel.handleKeypress
  simp only [matchesEscape, matchesTab, matchesShiftTab, matchesUp, matchesDown,
    matchesVimTop, matchesTop, matchesVimBottom, matchesBottom, matchesPageUp,
    matchesPageDown, matchesLeft, matchesRight, matchesSearch, matchesEnter,
    String.reduceBEq, String.reduceEq, Bool.or_self, Bool.or_true, Bool.true_or,
    Bool.or_false, Bool.false_or, if_true, if_false, Bool.false_eq_true,
    Bool.true_eq_false, ite_true, ite_false, false_and, and_false]
  rw [getFilteredPreviewRows_nofilter m p hp hfil]
  rw [if_pos (by simp [htab, hp])]
  split
  · rename_i hlt
    refine ⟨⟨?_, ?_, ?_, ?_, ?_, ?_⟩, ?_⟩ <;>
      simp [eAK_previewRowCursor, eAK_visualMode, eAK_visualStartRow,
        eAK_visualEndRow, eAK_activeTab, eAK_preview, eAK_previewFilter,
        hp, htab, hvm, hanchor, hfil, hlt]
  · rename_i hge
    refine ⟨⟨?_, ?_, ?_, ?_, ?_, ?_⟩, ?_⟩ <;>
      simp [eAK_previewRowCursor, eAK_visualMode, eAK_visualStartRow,
        eAK_visualEndRow, eAK_activeTab, eAK_preview, eAK_previewFilter,
        hp, htab, hvm, hanchor, hend, hfil, hge]

theorem visnav_up_step (p : TablePreview) (a : Int) (m : TableDetailModel)
    (h : VisNav p a m) :
    VisNav p a (m.handleKeypress "up") ∧
    (m.handleKeypress "up").previewRowCursor =
      (if m.previewRowCursor > 0 then m.previewRowCursor - 1
       else m.previewRowCursor) := by
  obtain ⟨hp, htab, hvm, hfil, hanchor, hend⟩ := h
  unfold TableDetailModel.handleKeypress
  simp only [matchesEscape, matchesTab, matchesShiftTab, matchesUp, matchesDown,
    matchesVimTop, matchesTop, matchesVimBottom, matchesBottom, matchesPageUp,
    matchesPageDown, matchesLeft, matchesRight, matchesSearch, matchesEnter,
    String.reduceBEq, String.reduceEq, Bool.or_self, Bool.or_true, Bool.true_or,
    Bool.or_false, Bool.false_or, if_true, if_false, Bool.false_eq_true,
    Bool.true_eq_false, ite_true, ite_false, false_and, and_false]
  rw [if_pos (by simp [htab, hp])]
  split
  · rename_i hlt
    refine ⟨⟨?_, ?_, ?_, ?_, ?_, ?_⟩, ?_⟩ <;>
      simp [eAK_previewRowCursor, eAK_visualMode, eAK_visualStartRow,
        eAK_visualEndRow, eAK_activeTab, eAK_preview, eAK_previewFilter,
        hp, htab, hvm, hanchor, hfil, hlt]
  · rename_i hge
    refine ⟨⟨?_, ?_, ?_, ?_, ?_, ?_⟩, ?_⟩ <;>
      simp [eAK_previewRowCursor, eAK_visualMode, eAK_visualStartRow,
        eAK_visualEndRow, eAK_activeTab, eAK_preview, eAK_previewFilter,
        hp, htab, hvm, hanchor, hend, hfil, hge]

/-- Apply the same keypress n times. -/
def iterKey (k : String) : Nat → TableDetailModel → TableDetailModel
  | 0, m => m
  | n + 1, m => iterKey k n (m.handleKeypress k)

/-- Navigate the preview cursor to row r with repeated single-row
movement keypresses (down or up as needed). -/
def navToRow (m : TableDetailModel) (r : Int) : TableDetailModel :=
  if m.previewRowCursor ≤ r then iterKey "down" (r - m.previewRowCursor).toNat m
  else iterKey "up" (m.previewRowCursor - r).toNat m

theorem visnav_iter_down (p : TablePreview) (a : Int) :
    ∀ (n : Nat) (m : TableDetailModel), VisNav p a m →
      m.previewRowCursor + n ≤ intLen p.rows - 1 →
      VisNav p a (iterKey "down" n m) ∧
      (iterKey "down" n m).previewRowCursor = m.previewRowCursor + n := by
  intro n
  induction n with
  | zero => exact fun m h _ => ⟨h, by simp [iterKey]⟩
  | succ n ih =>
    intro m h hb
    have hstep := visnav_down_step p a m h
    rw [if_pos (by omega)] at hstep
    have hrec := ih (m.handleKeypress "down") hstep.1 (by omega)
    refine ⟨by simpa [iterKey] using hrec.1, ?_⟩
    show (iterKey "down" n (m.handleKeypress "down")).previewRowCursor = _
    omega

theorem visnav_iter_up (p : TablePreview) (a : Int) :
    ∀ (n : Nat) (m : TableDetailModel), VisNav p a m →
      (n : Int) ≤ m.previewRowCursor →
      VisNav p a (iterKey "up" n m) ∧
      (iterKey "up" n m).previewRowCursor = m.previewRowCursor - n := by
  intro n
  induction n with
  | zero => exact fun m h _ => ⟨h, by simp [iterKey]⟩
  | succ n ih =>
    intro m h hb
    have hstep := visnav_up_step p a m h
    rw [if_pos (by omega)] at hstep
    have hrec := ih (m.handleKeypress "up") hstep.1 (by omega)
    refine ⟨by simpa [iterKey] using hrec.1, ?_⟩
    show (iterKey "up" n (m.handleKeypress "up")).previewRowCursor = _
    omega

theorem visnav_navToRow (p : TablePreview) (a : Int) (m : TableDetailModel)
    (r : Int) (h : VisNav p a m) (hr0 : 0 ≤ r) (hrlen : r ≤ intLen p.rows - 1)
    (_hc0 : 0 ≤ m.previewRowCursor) :
    VisNav p a (navToRow m r) ∧ (navToRow m r).previewRowCursor = r := by
  unfold navToRow
  split
  · rename_i hle
    have hiter := visnav_iter_down p a (r - m.previewRowCursor).toNat m h (by omega)
    exact ⟨hiter.1, by omega⟩
  · rename_i hgt
    have hiter := visnav_iter_up p a (m.previewRowCursor - r).toNat m h (by omega)
    exact ⟨hiter.1, by omega⟩

/-- Claim C7: toggling visual selection at row a and then extending to
row r (by repeated cursor movement, which is how the source extends a
selection) yields the same inclusive selected range
[min(a,r), max(a,r)] as toggling at row r and extending to row a; a
row's membership is independent of the direction the cursor moved. -/
theorem visual_range_symmetric (m : TableDetailModel) (p : TablePreview)
    (a r x : Int)
    (hp : m.preview = some p) (htab : m.activeTab = .previewTab)
    (hvm : m.visualMode = false) (hfil : m.previewFilter = "")
    (ha0 : 0 ≤ a) (halen : a ≤ intLen p.rows - 1)
    (hr0 : 0 ≤ r) (hrlen : r ≤ intLen p.rows - 1) :
    (navToRow (TableDetailModel.handleKeypress
        { m with previewRowCursor := a } "V") r).isRowInVisualSelection x =
      (navToRow (TableDetailModel.handleKeypress
        { m with previewRowCursor := r } "V") a).isRowInVisualSelection x ∧
    ((navToRow (TableDetailModel.handleKeypress
        { m with previewRowCursor := a } "V") r).isRowInVisualSelection x = true
      ↔ min a r ≤ x ∧ x ≤ max a r) := by
  have t1 := toggle_visual_on { m with previewRowCursor := a }
    (by simpa using htab) (by simp [hp]) (by simpa using hvm)
  have t2 := toggle_visual_on { m with previewRowCursor := r }
    (by simpa using htab) (by simp [hp]) (by simpa using hvm)
  have h1 : VisNav p a (TableDetailModel.handleKeypress
      { m with previewRowCursor := a } "V") := by
    rw [t1]
    exact ⟨by simpa using hp, by simpa using htab, rfl, by simpa using hfil,
      rfl, rfl⟩
  have h2 : VisNav p r (TableDetailModel.handleKeypress
      { m with previewRowCursor := r } "V") := by
    rw [t2]
    exact ⟨by simpa using hp, by simpa using htab, rfl, by simpa using hfil,
      rfl, rfl⟩
  have hc1 : 0 ≤ (TableDetailModel.handleKeypress
      { m with previewRowCursor := a } "V").previewRowCursor := by
    rw [t1]; simpa using ha0
  have hc2 : 0 ≤ (TableDetailModel.handleKeypress
      { m with previewRowCursor := r } "V").previewRowCursor := by
    rw [t2]; simpa using hr0
  obtain ⟨⟨_, _, hvm1, _, hstart1, hend1⟩, hcur1⟩ :=
    visnav_navToRow p a _ r h1 hr0 hrlen hc1
  obtain ⟨⟨_, _, hvm2, _, hstart2, hend2⟩, hcur2⟩ :=
    visnav_navToRow p r _ a h2 ha0 halen hc2
  rw [hcur1] at hend1
  rw [hcur2] at hend2
  constructor
  · simp [TableDetailModel.isRowInVisualSelection, hvm1, hvm2, hstart1, hend1,
      hstart2, hend2, min_comm a r, max_comm a r]
  · simp [TableDetailModel.isRowInVisualSelection, hvm1, hstart1, hend1]

/-- The C7 theorem applied to a six-row preview with anchor 5, extension
target 2 and probe row 3. -/
def visualProbePreview : TablePreview :=
  { headers := ["c"], rows := [["0"], ["1"], ["2"], ["3"], ["4"], ["5"]] }

def visualProbeModel : TableDetailModel :=
  { TableDetailModel.new with
    activeTab := .previewTab,
    preview := some visualProbePreview }

theorem visual_range_symmetric_witness :
    (visualProbeModel.preview = some visualProbePreview ∧
     visualProbeModel.activeTab = .previewTab ∧
     visualProbeModel.visualMode = false ∧
     visualProbeModel.previewFilter = "") ∧
    ((navToRow (TableDetailModel.handleKeypress
        { visualProbeModel with previewRowCursor := 5 } "V")
          2).isRowInVisualSelection 3 =
      (navToRow (TableDetailModel.handleKeypress
        { visualProbeModel with previewRowCursor := 2 } "V")
          5).isRowInVisualSelection 3 ∧
     ((navToRow (TableDetailModel.handleKeypress
        { visualProbeModel with previewRowCursor := 5 } "V")
          2).isRowInVisualSelection 3 = true ↔
       min (5 : Int) 2 ≤ 3 ∧ (3 : Int) ≤ max 5 2)) :=
  ⟨⟨rfl, rfl, rfl, rfl⟩,
    visual_range_symmetric visualProbeModel _ 5 2 3 rfl rfl rfl rfl
      (by decide) (by decide) (by decide) (by decide)⟩

/-! ## Claim C5: Escape priority -/

theorem handleKeypress_esc (m : TableDetailModel) :
    m.handleKeypress "esc" = m.handleEscapeKey := by
  unfold TableDetailModel.handleKeypress
  simp [matchesEscape]

/-- The filter owned by the active tab (the one Escape clears). -/
def TableDetailModel.activeFilter (m : TableDetailModel) : String :=
  match m.activeTab with
  | .schemaTab => m.schemaFilter
  | .previewTab => m.previewFilter
  | .queryTab => ""

/-- Claim C5: Escape is handled in priority order.  (1) With an open
project-picker overlay — even with an active visual selection and a
non-empty filter — a single Escape closes only the overlay, leaving the
whole detail pane (visual selection state and filter texts included)
unchanged.  (2) The help overlay is closed next.  (3) With no overlay
and the detail pane focused, Escape deactivates an active visual
selection, else (4a/4b) clears the active tab's non-empty filter, and
otherwise (5) moves focus back to the browser, touching nothing else. -/
theorem escape_priority (taUpd : String → String → String) (m : Model) :
    (m.focus ≠ .search → m.showProjectList = true →
      Model.update taUpd m (.key "esc") =
        ({ m with showProjectList := false, focus := .datasetList }, [])) ∧
    (m.focus ≠ .search → m.showProjectList = false → m.showHelp = true →
      Model.update taUpd m (.key "esc") = ({ m with showHelp := false }, [])) ∧
    (m.focus = .tableDetail → m.showProjectList = false → m.showHelp = false →
     m.tableDetail.visualMode = true →
      Model.update taUpd m (.key "esc") =
        ({ m with tableDetail := { m.tableDetail with
            visualMode := false, visualStartRow := 0, visualEndRow := 0 } }, [])) ∧
    (m.focus = .tableDetail → m.showProjectList = false → m.showHelp = false →
     m.tableDetail.visualMode = false → m.tableDetail.activeTab = .schemaTab →
     m.tableDetail.schemaFilter ≠ "" →
      Model.update taUpd m (.key "esc") =
        ({ m with tableDetail := { m.tableDetail with
            schemaFilter := "", schemaRowCursor := 0 } }, [])) ∧
    (m.focus = .tableDetail → m.showProjectList = false → m.showHelp = false →
     m.tableDetail.visualMode = false → m.tableDetail.activeTab = .previewTab →
     m.tableDetail.previewFilter ≠ "" →
      Model.update taUpd m (.key "esc") =
        ({ m with tableDetail := { m.tableDetail with
            previewFilter := "", previewRowCursor := 0 } }, [])) ∧
    (m.focus = .tableDetail → m.showProjectList = false → m.showHelp = false →
     m.tableDetail.visualMode = false → m.tableDetail.activeFilter = "" →
      Model.update taUpd m (.key "esc") =
        ({ m with focus := .datasetList }, [])) := by
  refine ⟨fun hfoc hover => ?_, fun hfoc hover hhelp => ?_,
    fun hfoc hover hhelp hvis => ?_, fun hfoc hover hhelp hvis htab hne => ?_,
    fun hfoc hover hhelp hvis htab hne => ?_, fun hfoc hover hhelp hvis hfil => ?_⟩
  · simp [Model.update, hfoc, hover, matchesQuit, matchesHelp,
      matchesProjectList, matchesEscape]
  · simp [Model.update, hfoc, hover, hhelp, matchesQuit, matchesHelp,
      matchesProjectList, matchesEscape]
  · have hfoc2 : m.focus ≠ .search := by rw [hfoc]; decide
    simp [Model.update, hfoc, hfoc2, hover, hhelp, matchesQuit, matchesHelp,
      matchesProjectList, matchesEscape, handleKeypress_esc,
      TableDetailModel.handleEscapeKey, hvis]
  · have hfoc2 : m.focus ≠ .search := by rw [hfoc]; decide
    simp [Model.update, hfoc, hfoc2, hover, hhelp, matchesQuit, matchesHelp,
      matchesProjectList, matchesEscape, handleKeypress_esc,
      TableDetailModel.handleEscapeKey, hvis, htab, hne, Ne.symm hne]
  · have hfoc2 : m.focus ≠ .search := by rw [hfoc]; decide
    simp [Model.update, hfoc, hfoc2, hover, hhelp, matchesQuit, matchesHelp,
      matchesProjectList, matchesEscape, handleKeypress_esc,
      TableDetailModel.handleEscapeKey, hvis, htab, hne, Ne.symm hne]
  · have hfoc2 : m.focus ≠ .search := by rw [hfoc]; decide
    rcases htab : m.tableDetail.activeTab <;>
      simp [TableDetailModel.activeFilter, htab] at hfil <;>
      simp [Model.update, hfoc, hfoc2, hover, hhelp, matchesQuit, matchesHelp,
        matchesProjectList, matchesEscape, handleKeypress_esc,
        TableDetailModel.handleEscapeKey, hvis, htab, hfil]

/-- The C5 theorem applied to a session with the project picker open, an
active visual selection and non-empty schema and preview filters: a
single Escape closes only the picker. -/
def escapeProbeModel : Model :=
  { Model.new "p" with
    focus := .projectSelector,
    showProjectList := true,
    tableDetail := { TableDetailModel.new with
      visualMode := true, visualStartRow := 1, visualEndRow := 3,
      schemaFilter := "abc", previewFilter := "xy" } }

theorem escape_priority_witness :
    (escapeProbeModel.focus ≠ .search ∧ escapeProbeModel.showProjectList = true) ∧
    Model.update textareaId escapeProbeModel (.key "esc") =
      ({ escapeProbeModel with showProjectList := false,
                               focus := .datasetList }, []) :=
  ⟨⟨by decide, rfl⟩,
    (escape_priority textareaId escapeProbeModel).1 (by decide) rfl⟩

/-! ## Claim C8: tab cycling -/

theorem nextTab_toIdx (t : TabType) : (nextTab t).toIdx = (t.toIdx + 1) % 3 := by
  cases t <;> decide

theorem prevTab_toIdx (t : TabType) : (prevTab t).toIdx = (t.toIdx + 2) % 3 := by
  cases t <;> decide

theorem scrollOffset_ensurePreviewColumnVisible (m : TableDetailModel) :
    (m.ensurePreviewColumnVisible).scrollOffset = m.scrollOffset := by
  unfold TableDetailModel.ensurePreviewColumnVisible
  dsimp only
  repeat' split
  all_goals rfl

theorem scrollOffset_ensurePreviewCursorVisible_zero (m : TableDetailModel)
    (h0 : m.scrollOffset = 0) (hc : m.previewRowCursor = 0) :
    (m.ensurePreviewCursorVisible).scrollOffset = 0 := by
  unfold TableDetailModel.ensurePreviewCursorVisible
  split
  · exact h0
  · dsimp only
    rw [hc, h0]
    simp only [intLen]
    split_ifs <;> omega

theorem scrollOffset_ensureSchemaCursorVisible_zero (m : TableDetailModel)
    (h0 : m.scrollOffset = 0) (hc : m.schemaRowCursor = 0) :
    (m.ensureSchemaCursorVisible).scrollOffset = 0 := by
  unfold TableDetailModel.ensureSchemaCursorVisible
  dsimp only
  rw [hc, h0]
  simp only [intLen]
  split_ifs <;> omega

/-- The trailing ensure block keeps a zeroed scroll offset at zero when
the row cursors are zero (the tab-switch situation). -/
theorem eAK_scrollOffset_zero (m : TableDetailModel)
    (h0 : m.scrollOffset = 0) (hcp : m.previewRowCursor = 0)
    (hcs : m.schemaRowCursor = 0) :
    (m.ensureCursorsAfterKey).scrollOffset = 0 := by
  unfold TableDetailModel.ensureCursorsAfterKey
  split_ifs
  · rw [scrollOffset_ensurePreviewColumnVisible]
    exact scrollOffset_ensurePreviewCursorVisible_zero m h0 hcp
  · exact scrollOffset_ensureSchemaCursorVisible_zero m h0 hcs
  · exact h0

/-- Claim C8: Tab and Shift+Tab advance the active tab by +1 resp. -1
modulo the 3 tabs (Schema, Preview, Query; +2 ≡ -1 mod 3), reset the
scroll offset and the per-tab row/column cursors to 0, deactivate any
visual selection, and leave the schema and preview filter texts
untouched.  The hypothesis on the query-editing sub-mode records the
invariant that entering the Query tab (itself only possible through a
tab cycle) has already zeroed the cursors and visual mode. -/
theorem tab_cycle_resets (taUpd : String → String → String)
    (m : TableDetailModel)
    (hsf : m.showSchemaFilter = false) (hpf : m.showPreviewFilter = false)
    (hq : m.activeTab = .queryTab → m.queryInput.focused = true →
      m.previewRowCursor = 0 ∧ m.previewColCursor = 0 ∧
      m.schemaRowCursor = 0 ∧ m.visualMode = false) :
    ((m.updateKey taUpd "tab").activeTab.toIdx = (m.activeTab.toIdx + 1) % 3 ∧
     (m.updateKey taUpd "tab").scrollOffset = 0 ∧
     (m.updateKey taUpd "tab").previewRowCursor = 0 ∧
     (m.updateKey taUpd "tab").previewColCursor = 0 ∧
     (m.updateKey taUpd "tab").schemaRowCursor = 0 ∧
     (m.updateKey taUpd "tab").visualMode = false ∧
     (m.updateKey taUpd "tab").schemaFilter = m.schemaFilter ∧
     (m.updateKey taUpd "tab").previewFilter = m.previewFilter) ∧
    ((m.updateKey taUpd "shift+tab").activeTab.toIdx
        = (m.activeTab.toIdx + 2) % 3 ∧
     (m.updateKey taUpd "shift+tab").scrollOffset = 0 ∧
     (m.updateKey taUpd "shift+tab").previewRowCursor = 0 ∧
     (m.updateKey taUpd "shift+tab").previewColCursor = 0 ∧
     (m.updateKey taUpd "shift+tab").schemaRowCursor = 0 ∧
     (m.updateKey taUpd "shift+tab").visualMode = false ∧
     (m.updateKey taUpd "shift+tab").schemaFilter = m.schemaFilter ∧
     (m.updateKey taUpd "shift+tab").previewFilter = m.previewFilter) := by
  unfold TableDetailModel.updateKey
  by_cases hqc : m.activeTab = .queryTab ∧ m.queryInput.focused = true
  · obtain ⟨hz1, hz2, hz3, hz4⟩ := hq hqc.1 hqc.2
    constructor <;>
    · rw [if_neg (by simp [hsf]), if_neg (by simp [hpf]), if_pos hqc]
      simp [matchesEscape, matchesTab, matchesShiftTab, nextTab_toIdx,
        prevTab_toIdx, hz1, hz2, hz3, hz4]
  · constructor <;>
    · rw [if_neg (by simp [hsf]), if_neg (by simp [hpf]), if_neg hqc]
      unfold TableDetailModel.handleKeypress
      simp only [matchesEscape, matchesTab, matchesShiftTab, matchesUp,
        matchesDown, matchesVimTop, matchesTop, matchesVimBottom, matchesBottom,
        matchesPageUp, matchesPageDown, matchesLeft, matchesRight, matchesSearch,
        matchesEnter, String.reduceBEq, String.reduceEq, Bool.or_self,
        Bool.or_true, Bool.true_or, Bool.or_false, Bool.false_or, if_true,
        if_false, Bool.false_eq_true, Bool.true_eq_false, ite_true, ite_false,
        false_and, and_false]
      refine ⟨?_, eAK_scrollOffset_zero _ rfl rfl rfl, ?_, ?_, ?_, ?_, ?_, ?_⟩ <;>
        simp [eAK_activeTab, eAK_previewRowCursor, eAK_previewColCursor,
          eAK_schemaRowCursor, eAK_visualMode, eAK_schemaFilter,
          eAK_previewFilter, nextTab_toIdx, prevTab_toIdx]

/-- The C8 theorem applied to a preview tab with non-trivial cursor,
scroll, visual and filter state. -/
def tabProbeModel : TableDetailModel :=
  { TableDetailModel.new with
    activeTab := .previewTab,
    preview := some visualProbePreview,
    visualMode := true, visualStartRow := 1, visualEndRow := 3,
    previewRowCursor := 3, previewColCursor := 0, schemaRowCursor := 2,
    scrollOffset := 5, schemaFilter := "f", previewFilter := "g",
    queryInput := { text := "", focused := false } }

theorem tab_cycle_resets_witness :
    (tabProbeModel.showSchemaFilter = false ∧
     tabProbeModel.showPreviewFilter = false) ∧
    ((tabProbeModel.updateKey textareaId "tab").activeTab.toIdx
        = (tabProbeModel.activeTab.toIdx + 1) % 3 ∧
     (tabProbeModel.updateKey textareaId "tab").scrollOffset = 0 ∧
     (tabProbeModel.updateKey textareaId "tab").previewRowCursor = 0 ∧
     (tabProbeModel.updateKey textareaId "tab").previewColCursor = 0 ∧
     (tabProbeModel.updateKey textareaId "tab").schemaRowCursor = 0 ∧
     (tabProbeModel.updateKey textareaId "tab").visualMode = false ∧
     (tabProbeModel.updateKey textareaId "tab").schemaFilter
        = tabProbeModel.schemaFilter ∧
     (tabProbeModel.updateKey textareaId "tab").previewFilter
        = tabProbeModel.previewFilter) :=
  ⟨⟨rfl, rfl⟩,
    (tab_cycle_resets textareaId tabProbeModel rfl rfl
      (fun h _ => absurd h (by decide))).1⟩

/-! ## Claim C6: horizontal column-scroll adjustment -/

/-- End position of column i in a width plan (start plus own width). -/
def colEndAt (ws : List Int) (i : Nat) : Int :=
  colStartOf ws i + ws.getD i 0

/-- Claim C6, amended: the passive adjustment ensurePreviewColumnVisible
never scrolls when the cursor column is already fully visible, pins the
offset to 0 on column 0, and otherwise moves the offset minimally to the
nearer edge (to colStart when the column starts left of the viewport,
else to colEnd - availableWidth).  The forced pinning of the last column
to max(0, colEnd - availableWidth) belongs to the jump adjustment
forceScrollToColumn (the $ key), which applies it even when the column
is already visible; forceScrollToColumn also pins column 0 to offset 0
and leaves a fully visible middle column alone. -/
theorem column_scroll_spec (m : TableDetailModel) (p : TablePreview)
    (hp : m.preview = some p) (hne : p.headers ≠ [])
    (hoff : 0 ≤ m.horizontalOffset) :
    (colStartOf m.calculateColumnWidths m.previewColCursor.toNat
        ≥ m.horizontalOffset ∧
     colEndAt m.calculateColumnWidths m.previewColCursor.toNat
        ≤ m.horizontalOffset + (m.width - 2) →
      m.ensurePreviewColumnVisible = m) ∧
    (m.previewColCursor = 0 →
      (m.ensurePreviewColumnVisible).horizontalOffset = 0) ∧
    (m.previewColCursor ≠ 0 →
     colStartOf m.calculateColumnWidths m.previewColCursor.toNat
        < m.horizontalOffset →
      (m.ensurePreviewColumnVisible).horizontalOffset =
        colStartOf m.calculateColumnWidths m.previewColCursor.toNat) ∧
    (m.previewColCursor ≠ 0 →
     colStartOf m.calculateColumnWidths m.previewColCursor.toNat
        ≥ m.horizontalOffset →
     colEndAt m.calculateColumnWidths m.previewColCursor.toNat
        > m.horizontalOffset + (m.width - 2) →
      (m.ensurePreviewColumnVisible).horizontalOffset =
        colEndAt m.calculateColumnWidths m.previewColCursor.toNat
          - (m.width - 2)) ∧
    ((m.forceScrollToColumn 0).horizontalOffset = 0) ∧
    (2 ≤ intLen p.headers →
      (m.forceScrollToColumn (intLen p.headers - 1)).horizontalOffset =
        max 0 (colEndAt m.calculateColumnWidths (intLen p.headers - 1).toNat
          - (m.width - 2))) ∧
    (∀ i : Int, 0 < i → i < intLen p.headers - 1 →
     colStartOf m.calculateColumnWidths i.toNat ≥ m.horizontalOffset →
     colEndAt m.calculateColumnWidths i.toNat ≤ m.horizontalOffset + (m.width - 2) →
      m.forceScrollToColumn i = m) := by
  have hlen : 0 < p.headers.length := List.length_pos.2 hne
  refine ⟨fun hvis => ?_, fun hc0 => ?_, fun hc0 hleft => ?_,
    fun hc0 hge hright => ?_, ?_, fun h2 => ?_, fun i hi0 hilt hs he => ?_⟩
  · unfold TableDetailModel.ensurePreviewColumnVisible
    rw [hp]
    dsimp only
    rw [if_neg (by omega), if_pos (by unfold colEndAt at hvis; tauto)]
  · unfold TableDetailModel.ensurePreviewColumnVisible
    rw [hp]
    dsimp only
    rw [if_neg (by omega)]
    rw [hc0]
    split
    · rename_i hvis
      have h0 : colStartOf m.calculateColumnWidths (0 : Int).toNat = 0 := rfl
      rw [h0] at hvis
      omega
    · rw [if_pos rfl]
  · unfold TableDetailModel.ensurePreviewColumnVisible
    rw [hp]
    dsimp only
    rw [if_neg (by omega), if_neg (by omega), if_neg (by simpa using hc0),
      if_pos hleft]
  · unfold TableDetailModel.ensurePreviewColumnVisible
    rw [hp]
    dsimp only
    unfold colEndAt at hright ⊢
    rw [if_neg (by omega), if_neg (by omega), if_neg (by simpa using hc0),
      if_neg (by omega), if_pos (by omega)]
    dsimp only
    omega
  · unfold TableDetailModel.forceScrollToColumn
    rw [hp]
    dsimp only
    rw [if_neg (by unfold intLen; omega), if_pos rfl]
  · unfold TableDetailModel.forceScrollToColumn
    rw [hp]
    dsimp only
    unfold intLen at h2 ⊢
    rw [if_neg (by omega), if_neg (by omega), if_pos rfl]
    dsimp only
    unfold colEndAt
    split <;> omega
  · unfold TableDetailModel.forceScrollToColumn
    rw [hp]
    dsimp only
    unfold intLen at hilt ⊢
    unfold colEndAt at he
    rw [if_neg (by omega), if_neg (by omega), if_neg (by omega),
      if_neg (by omega), if_neg (by omega)]

/-- The session of the counterexample: two columns of widths 30 and 8
(so the last column spans characters 31..38), viewport width 38,
horizontal offset 11, cursor on the last column.  The offset 11 is
reachable: scrolling right onto the last column at a narrower terminal
sets offset colEnd - width = 11, and widening the terminal to width 40
leaves the offset in place with the column fully visible. -/
def columnProbeModel : TableDetailModel :=
  { TableDetailModel.new with
    preview := some { headers :=
      ["aaaaaaaaaaaaaaaaaaaaaaaaaaaaaa", "b"], rows := [] },
    width := 40, horizontalOffset := 11, previewColCursor := 1 }

/-- Claim C6 counterexample: with the cursor column (the last column)
fully visible at offset 11, the passive adjustment returns 11 unchanged
while the claimed last-column rule demands max(0, colEnd -
availableWidth) = 1, and the jump adjustment forces 1 although the
column was already fully inside the viewport — no single adjustment
satisfies all clauses of the claim at this input. -/
theorem column_scroll_counterexample :
    columnProbeModel.calculateColumnWidths = [30, 8] ∧
    (colStartOf columnProbeModel.calculateColumnWidths 1
        ≥ columnProbeModel.horizontalOffset ∧
     colEndAt columnProbeModel.calculateColumnWidths 1
        ≤ columnProbeModel.horizontalOffset + (columnProbeModel.width - 2)) ∧
    (columnProbeModel.ensurePreviewColumnVisible).horizontalOffset = 11 ∧
    max 0 (colEndAt columnProbeModel.calculateColumnWidths 1
        - (columnProbeModel.width - 2)) = 1 ∧
    (columnProbeModel.forceScrollToColumn 1).horizontalOffset = 1 ∧
    (11 : Int) ≠ 1 := by
  decide

/-- The C6 theorem applied to the same concrete session: clause (i),
the no-gratuitous-scroll rule of the passive adjustment. -/
theorem column_scroll_spec_witness :
    (columnProbeModel.preview = some { headers :=
        ["aaaaaaaaaaaaaaaaaaaaaaaaaaaaaa", "b"], rows := [] } ∧
     (0 : Int) ≤ columnProbeModel.horizontalOffset ∧
     colStartOf columnProbeModel.calculateColumnWidths
        columnProbeModel.previewColCursor.toNat
          ≥ columnProbeModel.horizontalOffset ∧
     colEndAt columnProbeModel.calculateColumnWidths
        columnProbeModel.previewColCursor.toNat
          ≤ columnProbeModel.horizontalOffset + (columnProbeModel.width - 2)) ∧
    columnProbeModel.ensurePreviewColumnVisible = columnProbeModel :=
  ⟨⟨rfl, by decide, by decide, by decide⟩,
    (column_scroll_spec columnProbeModel _ rfl (by decide) (by decide)).1
      ⟨by decide, by decide⟩⟩

/-! ## Claim C4: SelectionKey de-duplication of Schema+Preview fetches -/

/-- The (dataset id, table id) selection pair that gates hover fetches. -/
def Model.hoverPair (m : Model) : Option (String × String) :=
  match m.datasetList.selectedDataset, m.datasetList.selectedTable with
  | some d, some t => some (d.id, t.id)
  | _, _ => none

def countSchemaFetches (cmds : List Cmd) : Nat :=
  (cmds.filter fun c => match c with
    | .fetchSchema _ _ => true
    | _ => false).length

def countPreviewFetches (cmds : List Cmd) : Nat :=
  (cmds.filter fun c => match c with
    | .fetchPreview _ _ => true
    | _ => false).length

/-- Run a sequence of key messages, accumulating dispatched commands. -/
def runKeys (taUpd : String → String → String) (m : Model) :
    List String → Model × List Cmd
  | [] => (m, [])
  | k :: rest =>
    let r := Model.update taUpd m (.key k)
    let r2 := runKeys taUpd r.1 rest
    (r2.1, r.2 ++ r2.2)

/-- A session hovering table t of dataset d whose Schema+Preview were
already fetched (lastSelectedTableID = d.t). -/
def enterProbeModel : Model :=
  { Model.new "p" with
    focus := .datasetList,
    lastSelectedDatasetID := "d",
    lastSelectedTableID := "d.t",
    datasetList := { DatasetListModel.new with
      datasets := [⟨"d"⟩], tables := [⟨"t", "d"⟩],
      selectedDataset := some ⟨"d"⟩, selectedTable := some ⟨"t", "d"⟩,
      showingTables := true, cursor := 0 } }

/-- Claim C4 counterexample: the explicit-select path performs no
SelectionKey check — pressing Enter on the very table whose key equals
the last fetched one still dispatches a fresh Schema+Preview pair. -/
theorem enterSelect_dispatches_despite_unchanged_key :
    enterProbeModel.lastSelectedTableID = "d.t" ∧
    enterProbeModel.hoverPair = some ("d", "t") ∧
    (Model.update textareaId enterProbeModel (.key "enter")).2 =
      [Cmd.fetchSchema "d" "t", Cmd.fetchPreview "d" "t"] ∧
    countSchemaFetches
      (Model.update textareaId enterProbeModel (.key "enter")).2 = 1 := by
  decide

theorem update_moveKey_routes (taUpd : String → String → String) (m : Model)
    (k : String) (hk : isMoveKey k = true) (hfoc : m.focus = .datasetList) :
    Model.update taUpd m (.key k) = Model.updateFocusedComponent taUpd m k := by
  have hk2 : k = "up" ∨ k = "k" ∨ k = "down" ∨ k = "j" ∨ k = "g" ∨ k = "home" ∨
      k = "G" ∨ k = "end" ∨ k = "pgup" ∨ k = "pgdown" := by
    simp only [isMoveKey, matchesUp, matchesDown, matchesVimTop, matchesTop,
      matchesVimBottom, matchesBottom, matchesPageUp, matchesPageDown,
      Bool.or_eq_true, beq_iff_eq] at hk
    tauto
  rcases hk2 with rfl | rfl | rfl | rfl | rfl | rfl | rfl | rfl | rfl | rfl <;>
  · unfold Model.update
    dsimp only
    rw [if_neg (by simp [hfoc]), if_neg (by decide), if_neg (by decide),
      if_neg (by decide), if_neg (by decide), if_neg (by decide),
      if_neg (by decide), if_neg (by decide)]

theorem dl_move_keeps_tableSelected (m : DatasetListModel) (k : String)
    (hk : isMoveKey k = true) :
    (m.handleKeypress k).tableSelected = m.tableSelected := by
  have hfall : ∀ (m1 : DatasetListModel) (n : Int),
      ((m1.updateSelection).ensureCursorVisible n).tableSelected
        = m1.tableSelected := fun m1 n => (updateSelection_preserves m1).2.2.2
  have hk2 : k = "up" ∨ k = "k" ∨ k = "down" ∨ k = "j" ∨ k = "g" ∨ k = "home" ∨
      k = "G" ∨ k = "end" ∨ k = "pgup" ∨ k = "pgdown" := by
    simp only [isMoveKey, matchesUp, matchesDown, matchesVimTop, matchesTop,
      matchesVimBottom, matchesBottom, matchesPageUp, matchesPageDown,
      Bool.or_eq_true, beq_iff_eq] at hk
    tauto
  rcases hk2 with rfl | rfl | rfl | rfl | rfl | rfl | rfl | rfl | rfl | rfl <;>
  · simp only [DatasetListModel.handleKeypress, matchesUp, matchesDown,
      matchesVimTop, matchesTop, matchesVimBottom, matchesBottom,
      matchesPageUp, matchesPageDown, matchesEnter, matchesLeft, matchesRight,
      String.reduceBEq, String.reduceEq, Bool.or_self, Bool.or_true,
      Bool.true_or, Bool.or_false, Bool.false_or, if_true, if_false,
      Bool.false_eq_true, Bool.true_eq_false, ite_true, ite_false, false_and,
      and_false]
    split
    · rfl
    · (try split) <;> apply hfall

/-- One cursor tick in the browser: a movement key never flips
tableSelected, keeps focus and the last fetched dataset id, and — when
the post-update selection is the pair (dId, tId) — dispatches a
Schema+Preview pair only when the key differs from the last fetched
one, recording the new key; on an unchanged key nothing is fetched. -/
theorem hover_tick_step (taUpd : String → String → String) (m : Model)
    (k dId tId : String)
    (hk : isMoveKey k = true) (hfoc : m.focus = .datasetList)
    (hts : m.datasetList.tableSelected = false)
    (hld : m.lastSelectedDatasetID = dId)
    (hsel : (Model.update taUpd m (.key k)).1.hoverPair = some (dId, tId)) :
    (Model.update taUpd m (.key k)).1.focus = .datasetList ∧
    (Model.update taUpd m (.key k)).1.datasetList.tableSelected = false ∧
    (Model.update taUpd m (.key k)).1.lastSelectedDatasetID = dId ∧
    (m.lastSelectedTableID = dId ++ "." ++ tId →
      countSchemaFetches (Model.update taUpd m (.key k)).2 = 0 ∧
      countPreviewFetches (Model.update taUpd m (.key k)).2 = 0 ∧
      (Model.update taUpd m (.key k)).1.lastSelectedTableID
        = m.lastSelectedTableID) ∧
    (m.lastSelectedTableID ≠ dId ++ "." ++ tId →
      countSchemaFetches (Model.update taUpd m (.key k)).2 = 1 ∧
      countPreviewFetches (Model.update taUpd m (.key k)).2 = 1 ∧
      (Model.update taUpd m (.key k)).1.lastSelectedTableID
        = dId ++ "." ++ tId) := by
  rw [update_moveKey_routes taUpd m k hk hfoc] at hsel ⊢
  have hts2 : (m.datasetList.handleKeypress k).tableSelected = false := by
    rw [dl_move_keeps_tableSelected m.datasetList k hk, hts]
  unfold Model.updateFocusedComponent at hsel ⊢
  rw [hfoc] at hsel ⊢
  dsimp only at hsel ⊢
  rw [if_neg (show ¬((m.datasetList.handleKeypress k).tableSelected = true) by
    simp [hts2])] at hsel ⊢
  revert hsel
  rcases hd : (m.datasetList.handleKeypress k).selectedDataset with _ | d <;>
    rcases ht : (m.datasetList.handleKeypress k).selectedTable with _ | t <;>
      intro hsel <;> dsimp only at hsel ⊢
  · simp [Model.afterHoverFallthrough, Model.hoverPair, hd, ht] at hsel
  · simp [Model.afterHoverFallthrough, Model.hoverPair, hd, ht] at hsel
  · simp only [Model.afterHoverFallthrough, hd] at hsel
    try dsimp only at hsel
    by_cases hnew : m.lastSelectedDatasetID ≠ d.id <;>
      simp [Model.hoverPair, hd, ht, hnew] at hsel
  · have hpair : d.id = dId ∧ t.id = tId := by
      by_cases hkey : m.lastSelectedTableID ≠ d.id ++ "." ++ t.id
      · rw [if_pos hkey] at hsel
        simpa [Model.hoverPair, hd, ht] using hsel
      · rw [if_neg hkey] at hsel
        unfold Model.afterHoverFallthrough at hsel
        try dsimp only at hsel
        rw [hd] at hsel
        try dsimp only at hsel
        by_cases hnew : m.lastSelectedDatasetID ≠ d.id <;>
          [rw [if_pos hnew] at hsel; rw [if_neg hnew] at hsel] <;>
          simpa [Model.hoverPair, hd, ht] using hsel
    obtain ⟨hdid, htid⟩ := hpair
    by_cases hkey : m.lastSelectedTableID = dId ++ "." ++ tId
    · rw [if_neg (by rw [hdid, htid]; simpa using hkey)]
      unfold Model.afterHoverFallthrough
      try dsimp only
      rw [hd]
      try dsimp only
      rw [if_neg (by rw [hld, hdid]; simp)]
      refine ⟨rfl, hts2, hld, fun _ => ?_, fun hne => absurd hkey hne⟩
      exact ⟨rfl, rfl, rfl⟩
    · rw [if_pos (by rw [hdid, htid]; simpa using hkey)]
      refine ⟨rfl, hts2, hld, fun heq => absurd heq hkey, fun _ => ?_⟩
      simp [Model.loadTableSchema, Model.loadTablePreview, ht,
        countSchemaFetches, countPreviewFetches, hdid, htid]

theorem countSchemaFetches_append (a b : List Cmd) :
    countSchemaFetches (a ++ b) = countSchemaFetches a + countSchemaFetches b := by
  simp [countSchemaFetches, List.filter_append]

theorem countPreviewFetches_append (a b : List Cmd) :
    countPreviewFetches (a ++ b)
      = countPreviewFetches a + countPreviewFetches b := by
  simp [countPreviewFetches, List.filter_append]

/-- Cursor ticks whose selection key already equals the last fetched one
dispatch nothing at all. -/
theorem hover_ticks_aligned (taUpd : String → String → String) :
    ∀ (ks : List String) (m : Model) (dId tId : String),
      (∀ k ∈ ks, isMoveKey k = true) → m.focus = .datasetList →
      m.datasetList.tableSelected = false → m.lastSelectedDatasetID = dId →
      m.lastSelectedTableID = dId ++ "." ++ tId →
      (∀ i : Nat, i ≤ ks.length →
        (runKeys taUpd m (ks.take i)).1.hoverPair = some (dId, tId)) →
      countSchemaFetches (runKeys taUpd m ks).2 = 0 ∧
      countPreviewFetches (runKeys taUpd m ks).2 = 0 := by
  intro ks
  induction ks with
  | nil => exact fun m dId tId _ _ _ _ _ _ => ⟨rfl, rfl⟩
  | cons k rest ih =>
    intro m dId tId hks hfoc hts hld hlt hsel
    have hsel1 : (Model.update taUpd m (.key k)).1.hoverPair = some (dId, tId) := by
      have h := hsel 1 (by simp)
      simpa [runKeys] using h
    obtain ⟨sf, sts, sld, haligned, _⟩ :=
      hover_tick_step taUpd m k dId tId (hks k (by simp)) hfoc hts hld hsel1
    obtain ⟨c1, c2, c3⟩ := haligned hlt
    have hrec := ih (Model.update taUpd m (.key k)).1 dId tId
      (fun k2 h2 => hks k2 (by simp [h2])) sf sts sld (by rw [c3, hlt])
      (fun i hi => by
        have h := hsel (i + 1) (by simpa using hi)
        simpa [runKeys, List.take_succ_cons] using h)
    constructor
    · show countSchemaFetches ((Model.update taUpd m (.key k)).2 ++
        (runKeys taUpd (Model.update taUpd m (.key k)).1 rest).2) = 0
      rw [countSchemaFetches_append, c1, hrec.1]
    · show countPreviewFetches ((Model.update taUpd m (.key k)).2 ++
        (runKeys taUpd (Model.update taUpd m (.key k)).1 rest).2) = 0
      rw [countPreviewFetches_append, c2, hrec.2]

/-- Claim C4, amended: only the hover path compares the computed
SelectionKey with the last one fetched — a cursor tick whose resulting
selection key equals the last fetched key dispatches no Schema or
Preview fetch, and any sequence of cursor ticks that keeps the same
table selected dispatches at most one Schema and one Preview fetch.
The explicit-select path (Enter on a table) performs no such check and
always dispatches (see the counterexample). -/
theorem hover_dedup_single_dispatch (taUpd : String → String → String) :
    (∀ (m : Model) (k dId tId : String), isMoveKey k = true →
      m.focus = .datasetList → m.datasetList.tableSelected = false →
      m.lastSelectedDatasetID = dId →
      (Model.update taUpd m (.key k)).1.hoverPair = some (dId, tId) →
      m.lastSelectedTableID = dId ++ "." ++ tId →
      countSchemaFetches (Model.update taUpd m (.key k)).2 = 0 ∧
      countPreviewFetches (Model.update taUpd m (.key k)).2 = 0) ∧
    (∀ (ks : List String) (m : Model) (dId tId : String),
      (∀ k ∈ ks, isMoveKey k = true) → m.focus = .datasetList →
      m.datasetList.tableSelected = false → m.lastSelectedDatasetID = dId →
      (∀ i : Nat, i ≤ ks.length →
        (runKeys taUpd m (ks.take i)).1.hoverPair = some (dId, tId)) →
      countSchemaFetches (runKeys taUpd m ks).2 ≤ 1 ∧
      countPreviewFetches (runKeys taUpd m ks).2 ≤ 1) := by
  constructor
  · intro m k dId tId hk hfoc hts hld hsel hlt
    obtain ⟨_, _, _, haligned, _⟩ :=
      hover_tick_step taUpd m k dId tId hk hfoc hts hld hsel
    exact ⟨(haligned hlt).1, (haligned hlt).2.1⟩
  · intro ks m dId tId hks hfoc hts hld hsel
    cases ks with
    | nil => exact ⟨Nat.le_succ 0, Nat.le_succ 0⟩
    | cons k rest =>
      have hsel1 : (Model.update taUpd m (.key k)).1.hoverPair
          = some (dId, tId) := by
        have h := hsel 1 (by simp)
        simpa [runKeys] using h
      obtain ⟨sf, sts, sld, haligned, hmoved⟩ :=
        hover_tick_step taUpd m k dId tId (hks k (by simp)) hfoc hts hld hsel1
      have hprefix : ∀ i : Nat, i ≤ rest.length →
          (runKeys taUpd (Model.update taUpd m (.key k)).1
            (rest.take i)).1.hoverPair = some (dId, tId) := fun i hi => by
        have h := hsel (i + 1) (by simpa using hi)
        simpa [runKeys, List.take_succ_cons] using h
      by_cases halign : m.lastSelectedTableID = dId ++ "." ++ tId
      · obtain ⟨c1, c2, c3⟩ := haligned halign
        obtain ⟨r1, r2⟩ := hover_ticks_aligned taUpd rest
          (Model.update taUpd m (.key k)).1 dId tId
          (fun k2 h2 => hks k2 (by simp [h2])) sf sts sld
          (by rw [c3, halign]) hprefix
        constructor
        · show countSchemaFetches ((Model.update taUpd m (.key k)).2 ++
            (runKeys taUpd (Model.update taUpd m (.key k)).1 rest).2) ≤ 1
          rw [countSchemaFetches_append, c1, r1]
          omega
        · show countPreviewFetches ((Model.update taUpd m (.key k)).2 ++
            (runKeys taUpd (Model.update taUpd m (.key k)).1 rest).2) ≤ 1
          rw [countPreviewFetches_append, c2, r2]
          omega
      · obtain ⟨c1, c2, c3⟩ := hmoved halign
        obtain ⟨r1, r2⟩ := hover_ticks_aligned taUpd rest
          (Model.update taUpd m (.key k)).1 dId tId
          (fun k2 h2 => hks k2 (by simp [h2])) sf sts sld c3 hprefix
        constructor
        · show countSchemaFetches ((Model.update taUpd m (.key k)).2 ++
            (runKeys taUpd (Model.update taUpd m (.key k)).1 rest).2) ≤ 1
          rw [countSchemaFetches_append, c1, r1]
        · show countPreviewFetches ((Model.update taUpd m (.key k)).2 ++
            (runKeys taUpd (Model.update taUpd m (.key k)).1 rest).2) ≤ 1
          rw [countPreviewFetches_append, c2, r2]

/-- The C4 theorem applied to a concrete hovering session: the up key at
the top of the table list keeps table t of dataset d selected and its
key d.t equals the last fetched key, so nothing is dispatched. -/
theorem hover_dedup_single_dispatch_witness :
    (isMoveKey "k" = true ∧ enterProbeModel.focus = .datasetList ∧
     enterProbeModel.datasetList.tableSelected = false ∧
     enterProbeModel.lastSelectedDatasetID = "d" ∧
     (Model.update textareaId enterProbeModel (.key "k")).1.hoverPair
        = some ("d", "t") ∧
     enterProbeModel.lastSelectedTableID = "d" ++ "." ++ "t") ∧
    (countSchemaFetches
        (Model.update textareaId enterProbeModel (.key "k")).2 = 0 ∧
     countPreviewFetches
        (Model.update textareaId enterProbeModel (.key "k")).2 = 0) :=
  ⟨⟨by decide, by decide, by decide, by decide, by decide, by decide⟩,
    (hover_dedup_single_dispatch textareaId).1 enterProbeModel "k" "d" "t"
      (by decide) (by decide) (by decide) (by decide) (by decide) (by decide)⟩

end Bqui
